import Mathlib

/-!
Verification of the pypsgemu AY-3-8910 emulator core against its
natural-language specification.

The definitions below are a shallow embedding of the Python sources:
  - `ymDacTable`, `ymFloat`            from pypsgemu/utils/volume_table.py
  - `lfsrStep`, `LFSR`                 from pypsgemu/utils/lfsr.py
  - `ToneGen`                          from pypsgemu/core/tone_generator.py
  - `NoiseGen`                         from pypsgemu/core/noise_generator.py
  - `EnvGen`                           from pypsgemu/core/envelope_generator.py
  - mixer functions                    from pypsgemu/core/mixer.py
  - `Core` and its operations          from pypsgemu/core/ay38910.py

Python integers are modelled as `Int` where the source can store or
transiently produce negative values (tone counters, envelope level and
counters, the master clock restored from a snapshot) and as `Nat` where
the source validates non-negativity on every entry path.  Floating point
amplitudes are modelled exactly: table values as rationals
(value / 65535), and the equal-power pan coefficient `math.sqrt(0.5)` as
the real number `Real.sqrt (1/2)`.
-/

/-! ## Volume table (pypsgemu/utils/volume_table.py)

The default `VolumeTable()` (as constructed by `AY38910Core.__init__`)
uses chip type "YM2149", i.e. the 32-entry `_YM_DAC_TABLE`, and
`_float_table[i] = _pcm_table[i] / 65535.0`. -/

def ymDacTable : List Nat :=
  [0, 418, 608, 882, 1281, 1859, 2700, 3920,
   5691, 8262, 11996, 17415, 22500, 27500, 30000, 32768,
   35000, 37500, 40000, 42500, 45000, 47500, 50000, 52500,
   55000, 57500, 60000, 62500, 64000, 65000, 65500, 65535]

/-- Model of `VolumeTable.lookup_float`: normalized amplitude of a
5-bit level (the Python code raises for levels above 31; theorems keep
levels in range, the default value 0 is never reached there). -/
def ymFloat (level : Nat) : ℚ :=
  (ymDacTable.getD level 0 : ℚ) / 65535

/-! ## LFSR (pypsgemu/utils/lfsr.py) -/

/-- Model of the value update inside `LFSR.step`: feedback bit is
bit 0 XOR bit 14, the value is shifted right and the feedback bit is
injected at bit 16, then masked to 17 bits. -/
def lfsrStep (v : Nat) : Nat :=
  ((v >>> 1) ||| (((v &&& 1) ^^^ ((v >>> 14) &&& 1)) <<< 16)) &&& 131071

structure LFSR where
  value : Nat
  initialValue : Nat
  cycleCount : Nat
  deriving DecidableEq, Repr

/-- Model of `LFSR.get_output`: truthiness of `value & 1`. -/
def LFSR.getOutput (l : LFSR) : Bool := (l.value &&& 1) != 0

/-- Model of `LFSR.step`: advance the value, count the cycle, and
return the new bit 0. -/
def LFSR.step (l : LFSR) : LFSR × Bool :=
  let v := lfsrStep l.value
  ({ l with value := v, cycleCount := l.cycleCount + 1 }, (v &&& 1) != 0)

/-- LFSR state after `LFSR.__init__(initial_value)` (the default seed,
used by the noise generator, is 1). -/
def LFSR.init (seed : Nat) : LFSR :=
  { value := seed, initialValue := seed, cycleCount := 0 }

/-- Model of `LFSR.reset(None)`: restore the stored initial value and
clear the cycle count. -/
def LFSR.reset (l : LFSR) : LFSR :=
  { l with value := l.initialValue, cycleCount := 0 }

/-! ## Tone generator (pypsgemu/core/tone_generator.py) -/

structure ToneGen where
  period : Nat
  counter : Int
  output : Bool
  deriving DecidableEq, Repr

/-- Tone generator state after `ToneGenerator.__init__(initial_period)`. -/
def ToneGen.init (p : Nat) : ToneGen :=
  { period := p, counter := (p : Int), output := false }

/-- Model of one loop iteration of `ToneGenerator.update`: decrement
the counter; at zero or below, flip the output and reload the period. -/
def ToneGen.update1 (g : ToneGen) : ToneGen :=
  let c := g.counter - 1
  if c ≤ 0 then { g with output := !g.output, counter := (g.period : Int) }
  else { g with counter := c }

/-- Model of `ToneGenerator.set_period`: 12-bit period
`(coarse << 8) | fine` clamped up to 1; a counter above the new period
is pulled down to it. -/
def ToneGen.setPeriod (g : ToneGen) (fine coarse : Nat) : ToneGen :=
  let tp := (coarse <<< 8) ||| fine
  let p := max 1 tp
  { g with period := p,
           counter := if g.counter > (p : Int) then (p : Int) else g.counter }

/-- Model of `ToneGenerator.reset`: counter back to the period, output
low (the unused `_prescaler_counter` attribute is not modelled). -/
def ToneGen.reset (g : ToneGen) : ToneGen :=
  { g with counter := (g.period : Int), output := false }

/-! ## Noise generator (pypsgemu/core/noise_generator.py) -/

structure NoiseGen where
  lfsr : LFSR
  period : Nat
  counter : Nat
  output : Bool
  deriving DecidableEq, Repr

/-- Noise generator state after `NoiseGenerator.__init__(1, None)`:
period 1, counter 0 and the output latched from the LFSR (seed 1). -/
def NoiseGen.init : NoiseGen :=
  { lfsr := LFSR.init 1, period := 1, counter := 0,
    output := (LFSR.init 1).getOutput }

/-- Model of one loop iteration of `NoiseGenerator.update`: increment
the counter; once it reaches twice the period, step the LFSR, latch its
new bit 0 and clear the counter. -/
def NoiseGen.update1 (g : NoiseGen) : NoiseGen :=
  let c := g.counter + 1
  if c ≥ g.period <<< 1 then
    let s := g.lfsr.step
    { g with lfsr := s.1, output := s.2, counter := 0 }
  else { g with counter := c }

/-- Model of `NoiseGenerator.set_period`: clamp 0 up to 1 and clear the
counter. -/
def NoiseGen.setPeriod (g : NoiseGen) (np : Nat) : NoiseGen :=
  { g with period := max 1 np, counter := 0 }

/-- Model of `NoiseGenerator.reset(None)`: reset the LFSR to its seed,
clear the counter and latch the output from the LFSR. -/
def NoiseGen.reset (g : NoiseGen) : NoiseGen :=
  let l := g.lfsr.reset
  { g with lfsr := l, counter := 0, output := l.getOutput }

/-! ## Envelope generator (pypsgemu/core/envelope_generator.py) -/

inductive SegFunc
  | slideDown
  | slideUp
  | holdBottom
  | holdTop
  deriving DecidableEq, Repr

/-- Model of the `ENVELOPE_FUNCTIONS` table: each 4-bit shape selects a
pair of segment functions. Shapes above 15 would raise an IndexError in
Python; the catch-all arm is never reached by the theorems below. -/
def envFuncPair : Nat → SegFunc × SegFunc
  | 0 => (.slideDown, .holdBottom)
  | 1 => (.slideDown, .holdBottom)
  | 2 => (.slideDown, .holdBottom)
  | 3 => (.slideDown, .holdBottom)
  | 4 => (.slideUp, .holdBottom)
  | 5 => (.slideUp, .holdBottom)
  | 6 => (.slideUp, .holdBottom)
  | 7 => (.slideUp, .holdBottom)
  | 8 => (.slideDown, .slideDown)
  | 9 => (.slideDown, .holdBottom)
  | 10 => (.slideDown, .slideUp)
  | 11 => (.slideDown, .holdTop)
  | 12 => (.slideUp, .slideUp)
  | 13 => (.slideUp, .holdTop)
  | 14 => (.slideUp, .slideDown)
  | _ => (.slideUp, .holdBottom)

/-- Segment function at `ENVELOPE_FUNCTIONS[shape][segment]`; the code
only ever stores 0 or 1 in `_current_segment`. -/
def segAt (shape segment : Nat) : SegFunc :=
  if segment = 0 then (envFuncPair shape).1 else (envFuncPair shape).2

structure EnvGen where
  period : Nat
  counter : Int
  shape : Nat
  segment : Nat
  envCounter : Int
  envPeriod : Int
  level : Int
  deriving DecidableEq, Repr

/-- Model of `EnvelopeGenerator._reset_segment`: level jumps to 31 when
the new segment function is `slide_down` or `hold_top`, otherwise 0. -/
def EnvGen.resetSegment (g : EnvGen) : EnvGen :=
  match segAt g.shape g.segment with
  | .slideDown => { g with level := 31 }
  | .holdTop => { g with level := 31 }
  | _ => { g with level := 0 }

/-- Model of `EnvelopeGenerator._slide_down`. -/
def EnvGen.slideDown (g : EnvGen) : EnvGen :=
  let l := g.level - 1
  if l < 0 then
    ({ g with level := l, segment := g.segment ^^^ 1 }).resetSegment
  else { g with level := l }

/-- Model of `EnvelopeGenerator._slide_up`. -/
def EnvGen.slideUp (g : EnvGen) : EnvGen :=
  let l := g.level + 1
  if l > 31 then
    ({ g with level := l, segment := g.segment ^^^ 1 }).resetSegment
  else { g with level := l }

/-- Model of one loop iteration of `EnvelopeGenerator.update`: bump the
sub-counter; once it reaches the effective period, run the current
segment function and clear the sub-counter. -/
def EnvGen.update1 (g : EnvGen) : EnvGen :=
  let c := g.envCounter + 1
  if c ≥ g.envPeriod then
    let g' :=
      match segAt g.shape g.segment with
      | .slideDown => ({ g with envCounter := c }).slideDown
      | .slideUp => ({ g with envCounter := c }).slideUp
      | .holdBottom => { g with envCounter := c, level := 0 }
      | .holdTop => { g with envCounter := c, level := 31 }
    { g' with envCounter := 0 }
  else { g with envCounter := c }

/-- Model of `EnvelopeGenerator._reset_shape_state`: segment 0,
sub-counter 0, effective period 1, level 31. -/
def EnvGen.resetShapeState (g : EnvGen) : EnvGen :=
  { g with segment := 0, envCounter := 0, envPeriod := 1, level := 31 }

/-- Envelope generator after `EnvelopeGenerator.__init__(p, s)`. -/
def EnvGen.init (p s : Nat) : EnvGen :=
  EnvGen.resetShapeState
    { period := p, counter := (p : Int), shape := s,
      segment := 0, envCounter := 0, envPeriod := 1, level := 31 }

/-- Model of `EnvelopeGenerator.set_shape`: store the shape and reset
the shape state. -/
def EnvGen.setShape (g : EnvGen) (s : Nat) : EnvGen :=
  EnvGen.resetShapeState { g with shape := s }

/-- Model of `EnvelopeGenerator.set_envelope_period`. -/
def EnvGen.setEnvelopePeriod (g : EnvGen) (p : Nat) : EnvGen :=
  { g with envPeriod := (p : Int), envCounter := 0 }

/-- Model of `EnvelopeGenerator.set_period`: 16-bit period
`(coarse << 8) | fine` clamped up to 1; the legacy counter is reloaded
and the effective period is updated. -/
def EnvGen.setPeriod (g : EnvGen) (fine coarse : Nat) : EnvGen :=
  let ep := (coarse <<< 8) ||| fine
  let p := max 1 ep
  EnvGen.setEnvelopePeriod { g with period := p, counter := (p : Int) } p

/-- Model of `EnvelopeGenerator.set_period_direct`. -/
def EnvGen.setPeriodDirect (g : EnvGen) (period : Nat) : EnvGen :=
  let p := max 1 period
  EnvGen.setEnvelopePeriod { g with period := p, counter := (p : Int) } p

/-- Model of `EnvelopeGenerator.reset`: reload the legacy counter,
then reset the shape state (the transient
`_envelope_counter = _envelope_period` assignment is overwritten by
`_reset_shape_state`; the stored shape is kept). -/
def EnvGen.reset (g : EnvGen) : EnvGen :=
  EnvGen.resetShapeState { g with counter := (g.period : Int) }

/-! ## Mixer (pypsgemu/core/mixer.py)

`AY38910Core` constructs `Mixer(VolumeTable())` with the default
equal-power panning centred on every channel, so every pan coefficient
is `math.sqrt(0.5)`, modelled exactly as `Real.sqrt (1/2)`. -/

/-- Model of the per-channel branch of `Mixer.mix_channels`. -/
def mixChannelBit (tone noise tOff nOff : Bool) : Bool :=
  if tOff && nOff then false
  else if tOff then noise
  else if nOff then tone
  else tone || noise

/-- Tone-disable flag of channel `i` in the R7 byte (active high bit
`1 << i`), as tested by `mixer_control & (1 << channel)`. -/
def toneOffFlag (ctl i : Nat) : Bool := (ctl &&& (1 <<< i)) != 0

/-- Noise-disable flag of channel `i` in the R7 byte (bit `1 << (i+3)`). -/
def noiseOffFlag (ctl i : Nat) : Bool := (ctl &&& (1 <<< (i + 3))) != 0

/-- Gated bit of channel `i` as computed by `Mixer.mix_channels`. -/
def mixedChannel (t : Bool) (noise : Bool) (ctl i : Nat) : Bool :=
  mixChannelBit t noise (toneOffFlag ctl i) (noiseOffFlag ctl i)

/-- Model of the per-channel body of `Mixer.apply_volume`: bit 4 of the
volume register selects the envelope level, otherwise the low 4 bits are
used directly; the level is looked up in the 32-entry float table, and a
gated-off channel contributes 0. -/
def ampChannel (gated : Bool) (volReg envLevel : Nat) : ℚ :=
  let lvl := if (volReg &&& 16) != 0 then envLevel else volReg &&& 15
  if gated then ymFloat lvl else 0

/-- Amplitude of channel `i` after mixing and volume control. -/
def channelAmp (t : Bool) (noise : Bool) (ctl volReg envLevel i : Nat) : ℚ :=
  ampChannel (mixedChannel t noise ctl i) volReg envLevel

/-- The pan coefficient installed by `Mixer.__init__` via
`set_panning(channel, 0.5)` with equal-power panning:
`math.sqrt(1.0 - 0.5)` on the left and `math.sqrt(0.5)` on the right. -/
noncomputable def panLeftC : ℝ := Real.sqrt (1 - (1 / 2 : ℝ))

noncomputable def panRightC : ℝ := Real.sqrt (1 / 2 : ℝ)

/-- Clamp to the audio range, as `max(-1.0, min(1.0, x))`. -/
def clamp1 (x : ℝ) : ℝ := max (-1) (min 1 x)

/-- Model of `Mixer.get_stereo_output` (left sample): volume outputs
accumulated against the left pan coefficients, then clamped. -/
noncomputable def stereoLeft (a0 a1 a2 : ℚ) : ℝ :=
  clamp1 (((0 : ℝ) + (a0 : ℝ) * panLeftC + (a1 : ℝ) * panLeftC + (a2 : ℝ) * panLeftC))

/-- Model of `Mixer.get_stereo_output` (right sample). -/
noncomputable def stereoRight (a0 a1 a2 : ℚ) : ℝ :=
  clamp1 (((0 : ℝ) + (a0 : ℝ) * panRightC + (a1 : ℝ) * panRightC + (a2 : ℝ) * panRightC))

/-- Model of `Mixer.get_mixed_output`: the mono average of the two
clamped stereo samples. -/
noncomputable def mixerMixedOutput (t0 t1 t2 : Bool) (noise : Bool)
    (ctl v0 v1 v2 envLevel : Nat) : ℝ :=
  (stereoLeft (channelAmp t0 noise ctl v0 envLevel 0)
      (channelAmp t1 noise ctl v1 envLevel 1)
      (channelAmp t2 noise ctl v2 envLevel 2)
    + stereoRight (channelAmp t0 noise ctl v0 envLevel 0)
        (channelAmp t1 noise ctl v1 envLevel 1)
        (channelAmp t2 noise ctl v2 envLevel 2)) / 2

/-! ## Emulator core (pypsgemu/core/ay38910.py)

`AY38910State` keeps the published register file, counters and outputs;
the generator objects are separate.  Note that Python class bodies keep
the *last* definition of a method: the effective
`_update_tone_generators` (line 222), `_update_noise_generator`
(line 259) and `_update_envelope_generator` (line 294) re-read the
period registers on every prescaled cycle before calling `update(1)`. -/

structure BasicState where
  registers : List Nat
  selectedRegister : Nat
  masterClock : Int
  toneCounters : List Nat
  noiseCounter : Nat
  envelopeCounter : Nat
  toneOutputs : List Bool
  noiseOutput : Bool
  envelopeLevel : Int
  lfsrValue : Nat
  envelopeHolding : Bool
  envelopeAttacking : Bool
  envelopeAlternating : Bool
  envelopeContinuing : Bool
  deriving DecidableEq, Repr

/-- The `AY38910State()` dataclass defaults. -/
def initBasicState : BasicState :=
  { registers := List.replicate 16 0
    selectedRegister := 0
    masterClock := 0
    toneCounters := List.replicate 3 0
    noiseCounter := 0
    envelopeCounter := 0
    toneOutputs := List.replicate 3 false
    noiseOutput := false
    envelopeLevel := 31
    lfsrValue := 131071
    envelopeHolding := false
    envelopeAttacking := false
    envelopeAlternating := false
    envelopeContinuing := false }

structure Core where
  state : BasicState
  tg0 : ToneGen
  tg1 : ToneGen
  tg2 : ToneGen
  noise : NoiseGen
  env : EnvGen
  deriving DecidableEq, Repr

/-- Core state after `AY38910Core.__init__`: fresh basic state with the
noise output and LFSR value synchronized from the freshly built noise
generator. -/
def initCore : Core :=
  { state := { initBasicState with
                 noiseOutput := NoiseGen.init.output
                 lfsrValue := NoiseGen.init.lfsr.value }
    tg0 := ToneGen.init 1
    tg1 := ToneGen.init 1
    tg2 := ToneGen.init 1
    noise := NoiseGen.init
    env := EnvGen.init 1 0 }

/-- One prescaled step of tone channel `i` inside the effective
`_update_tone_generators`: re-apply the period from the register pair
(R2i, R2i+1) and run one prescaled cycle. -/
def toneChanStep (regs : List Nat) (i : Nat) (g : ToneGen) : ToneGen :=
  (g.setPeriod (regs.getD (i * 2) 0) (regs.getD (i * 2 + 1) 0 &&& 15)).update1

/-- One prescaled step of the noise generator inside the effective
`_update_noise_generator`: re-apply the R6 period only when it differs
from the current one (a `set_period` call resets the counter), then run
one prescaled cycle. -/
def noiseStep (regs : List Nat) (g : NoiseGen) : NoiseGen :=
  let np := regs.getD 6 0 &&& 31
  let g' := if g.period ≠ np then g.setPeriod np else g
  g'.update1

/-- The three tone generators and the noise generator, advanced
together on each 16th master cycle. -/
def audioStep (regs : List Nat) :
    ToneGen × ToneGen × ToneGen × NoiseGen → ToneGen × ToneGen × ToneGen × NoiseGen :=
  fun g =>
    (toneChanStep regs 0 g.1, toneChanStep regs 1 g.2.1,
     toneChanStep regs 2 g.2.2.1, noiseStep regs g.2.2.2)

/-- The tone/noise update of the core on a 16-divisible master cycle,
including the published outputs. -/
def coreAudioUpdate (c : Core) : Core :=
  let t0 := toneChanStep c.state.registers 0 c.tg0
  let t1 := toneChanStep c.state.registers 1 c.tg1
  let t2 := toneChanStep c.state.registers 2 c.tg2
  let ng := noiseStep c.state.registers c.noise
  { c with tg0 := t0, tg1 := t1, tg2 := t2, noise := ng,
           state := { c.state with
                        toneOutputs := [t0.output, t1.output, t2.output]
                        noiseOutput := ng.output
                        lfsrValue := ng.lfsr.value } }

/-- The envelope update of the core on a 256-divisible master cycle. -/
def coreEnvUpdate (c : Core) : Core :=
  let eg := c.env.update1
  { c with env := eg, state := { c.state with envelopeLevel := eg.level } }

/-- One iteration of the loop inside `AY38910Core.tick`: bump the
master-clock counter, run the 16:1 prescaled update when it divides by
16 and the 256:1 envelope update when it divides by 256. -/
def coreCycle (c : Core) : Core :=
  let m := c.state.masterClock + 1
  let c1 : Core := { c with state := { c.state with masterClock := m } }
  let c2 := if m % 16 = 0 then coreAudioUpdate c1 else c1
  if m % 256 = 0 then coreEnvUpdate c2 else c2

/-- Model of `AY38910Core.tick`: run `n` master cycles and report the
consumed count (always `n`; negative inputs are excluded by `Nat`). -/
def coreTick (c : Core) (n : Nat) : Core × Nat :=
  (coreCycle^[n] c, n)

/-- Model of `AY38910Core._handle_register_write` for a register file
that has already absorbed the write. -/
def handleRegisterWrite (c : Core) (addr value : Nat) : Core :=
  if addr ≤ 5 then
    let ch := addr / 2
    let fine := c.state.registers.getD (ch * 2) 0
    let coarse := c.state.registers.getD (ch * 2 + 1) 0 &&& 15
    if ch = 0 then { c with tg0 := c.tg0.setPeriod fine coarse }
    else if ch = 1 then { c with tg1 := c.tg1.setPeriod fine coarse }
    else { c with tg2 := c.tg2.setPeriod fine coarse }
  else if addr = 6 then
    { c with noise := c.noise.setPeriod (value &&& 31) }
  else if addr = 11 ∨ addr = 12 then
    let fine := c.state.registers.getD 11 0
    let coarse := c.state.registers.getD 12 0
    { c with env := c.env.setPeriod fine coarse }
  else if addr = 13 then
    let eg := c.env.setShape (value &&& 15)
    { c with env := eg, state := { c.state with envelopeLevel := eg.level } }
  else c

/-- Model of `AY38910Core.write_register`: validate the address and the
value (else raise, modelled as `none`), store the byte and run the
write side effects. -/
def writeRegister (c : Core) (addr value : Nat) : Option Core :=
  if addr ≤ 15 ∧ value ≤ 255 then
    some (handleRegisterWrite
      { c with state := { c.state with
                            registers := c.state.registers.set addr value } }
      addr value)
  else none

/-- Model of `AY38910Core.reset`: a fresh `AY38910State` (without
re-synchronizing the published noise output or LFSR value) and a reset
of every generator. -/
def coreReset (c : Core) : Core :=
  { state := initBasicState
    tg0 := c.tg0.reset
    tg1 := c.tg1.reset
    tg2 := c.tg2.reset
    noise := c.noise.reset
    env := c.env.reset }

/-- Model of `AY38910Core.get_mixed_output`: feed the published
outputs, R7, R8-R10 and the published envelope level to the mixer and
scale by `config.volume_scale` (the published envelope level is in
[0, 31] in every reachable state; `Int.toNat` mirrors the in-range
case). -/
noncomputable def coreMixedOutput (c : Core) (volumeScale : ℝ) : ℝ :=
  mixerMixedOutput (c.state.toneOutputs.getD 0 false)
    (c.state.toneOutputs.getD 1 false) (c.state.toneOutputs.getD 2 false)
    c.state.noiseOutput (c.state.registers.getD 7 0)
    (c.state.registers.getD 8 0) (c.state.registers.getD 9 0)
    (c.state.registers.getD 10 0) c.state.envelopeLevel.toNat * volumeScale

/-- The specification sentence for claim C2, written from the spec
words (not from the code): sum the three channel amplitudes, apply the
volume scale, clamp to [-1, 1]. -/
noncomputable def specMixedOutput (c : Core) (volumeScale : ℝ) : ℝ :=
  clamp1 (((channelAmp (c.state.toneOutputs.getD 0 false) c.state.noiseOutput
              (c.state.registers.getD 7 0) (c.state.registers.getD 8 0)
              c.state.envelopeLevel.toNat 0 : ℝ)
      + (channelAmp (c.state.toneOutputs.getD 1 false) c.state.noiseOutput
          (c.state.registers.getD 7 0) (c.state.registers.getD 9 0)
          c.state.envelopeLevel.toNat 1 : ℝ)
      + (channelAmp (c.state.toneOutputs.getD 2 false) c.state.noiseOutput
          (c.state.registers.getD 7 0) (c.state.registers.getD 10 0)
          c.state.envelopeLevel.toNat 2 : ℝ)) * volumeScale)

/-! ## State snapshots (set_state paths)

A state dictionary is modelled with one `Option` per key that
`AY38910Core.set_state` or a generator `set_state` looks at; `none`
means the key is absent.  Numeric dictionary values are `Int` (Python
ints), boolean ones `Bool`. -/

structure ToneDict where
  period : Option Int
  counter : Option Int
  output : Option Bool
  deriving DecidableEq, Repr

/-- Model of `ToneGenerator.set_state`: all three keys must be present
and `period` and `counter` in range before anything is assigned, so a
failure (`none`) leaves the generator untouched. -/
def ToneGen.setState (g : ToneGen) (d : ToneDict) : Option ToneGen :=
  match d.period, d.counter, d.output with
  | some p, some c, some o =>
    if 1 ≤ p ∧ p ≤ 4095 then
      if 0 ≤ c ∧ c ≤ 4095 then
        some { period := p.toNat, counter := c, output := o }
      else none
    else none
  | _, _, _ => none

structure NoiseDict where
  period : Option Int
  counter : Option Int
  output : Option Bool
  lfsrValue : Option Int
  lfsrCycleCount : Option Int
  deriving DecidableEq, Repr

/-- Model of `NoiseGenerator.set_state`: key and range checks happen
before the period/counter/output assignments, but
`self._lfsr.set_value(lfsr_value)` validates the LFSR value only after
those assignments, so an invalid LFSR value leaves the generator
partially updated.  The result pairs the (possibly partially) updated
generator with an error flag. -/
def NoiseGen.setState (g : NoiseGen) (d : NoiseDict) : NoiseGen × Bool :=
  match d.period, d.counter, d.output, d.lfsrValue with
  | some p, some c, some o, some lv =>
    if 1 ≤ p ∧ p ≤ 31 then
      if 0 ≤ c ∧ c ≤ 31 then
        let g1 : NoiseGen :=
          { g with period := p.toNat, counter := c.toNat, output := o }
        if 0 < lv ∧ lv ≤ 131071 then
          let g2 : NoiseGen :=
            { g1 with lfsr := { g.lfsr with value := lv.toNat } }
          match d.lfsrCycleCount with
          | some _ => (⟨LFSR.init lv.toNat, g2.period, g2.counter, g2.output⟩, false)
          | none => (g2, false)
        else (g1, true)
      else (g, true)
    else (g, true)
  | _, _, _, _ => (g, true)

structure EnvDict where
  period : Option Int
  counter : Option Int
  level : Option Int
  shape : Option Int
  currentSegment : Option Nat
  envelopeCounter : Option Int
  envelopePeriod : Option Int
  deriving DecidableEq, Repr

/-- Model of `EnvelopeGenerator.set_state`: all seven keys must be
present and `period`, `level` and `shape` in range before any
assignment, so a failure leaves the generator untouched (the remaining
fields are stored unvalidated; the Python `current_segment` value is
restricted to naturals here, the only values the code ever produces). -/
def EnvGen.setState (g : EnvGen) (d : EnvDict) : Option EnvGen :=
  match d.period, d.counter, d.level, d.shape, d.currentSegment,
        d.envelopeCounter, d.envelopePeriod with
  | some p, some c, some l, some s, some seg, some ec, some ep =>
    if 1 ≤ p ∧ p ≤ 65535 then
      if 0 ≤ l ∧ l ≤ 31 then
        if 0 ≤ s ∧ s ≤ 15 then
          some { period := p.toNat, counter := c, level := l,
                 shape := s.toNat, segment := seg, envCounter := ec,
                 envPeriod := ep }
        else none
      else none
    else none
  | _, _, _, _, _, _, _ => none

structure StateDict where
  registers : Option (List Int)
  selectedRegister : Option Int
  masterClockCounter : Option Int
  toneCounters : Option (List Int)
  noiseCounter : Option Int
  envelopeCounter : Option Int
  toneOutputs : Option (List Bool)
  noiseOutput : Option Bool
  envelopeLevel : Option Int
  lfsrValue : Option Int
  envelopeHolding : Option Bool
  envelopeAttacking : Option Bool
  envelopeAlternating : Option Bool
  envelopeContinuing : Option Bool
  toneGeneratorStates : Option (List ToneDict)
  noiseGeneratorState : Option NoiseDict
  envelopeGeneratorState : Option EnvDict
  deriving DecidableEq, Repr

/-- The all-absent dictionary. -/
def emptyStateDict : StateDict :=
  { registers := none, selectedRegister := none, masterClockCounter := none,
    toneCounters := none, noiseCounter := none, envelopeCounter := none,
    toneOutputs := none, noiseOutput := none, envelopeLevel := none,
    lfsrValue := none, envelopeHolding := none, envelopeAttacking := none,
    envelopeAlternating := none, envelopeContinuing := none,
    toneGeneratorStates := none, noiseGeneratorState := none,
    envelopeGeneratorState := none }

/-- Model of `AY38910State.from_dict` combined with `__post_init__`:
missing keys take the dataclass defaults; the validated fields
(registers, selected register, tone/noise/envelope counters, envelope
level, LFSR value) must be in range, otherwise the constructor raises
(`none`) before the core assigns the new state. -/
def buildBasicChecked (d : StateDict) : Option BasicState :=
  let regs := d.registers.getD (List.replicate 16 0)
  let sel := d.selectedRegister.getD 0
  let tcs := d.toneCounters.getD (List.replicate 3 0)
  let nc := d.noiseCounter.getD 0
  let ec := d.envelopeCounter.getD 0
  let el := d.envelopeLevel.getD 31
  let lv := d.lfsrValue.getD 131071
  if regs.all (fun r => 0 ≤ r ∧ r ≤ 255) then
    if 0 ≤ sel ∧ sel ≤ 15 then
      if tcs.all (fun t => 0 ≤ t ∧ t ≤ 4095) then
        if 0 ≤ nc ∧ nc ≤ 31 then
          if 0 ≤ ec ∧ ec ≤ 65535 then
            if 0 ≤ el ∧ el ≤ 31 then
              if 0 ≤ lv ∧ lv ≤ 131071 then
                some { registers := regs.map Int.toNat
                       selectedRegister := sel.toNat
                       masterClock := d.masterClockCounter.getD 0
                       toneCounters := tcs.map Int.toNat
                       noiseCounter := nc.toNat
                       envelopeCounter := ec.toNat
                       toneOutputs := d.toneOutputs.getD (List.replicate 3 false)
                       noiseOutput := d.noiseOutput.getD false
                       envelopeLevel := el
                       lfsrValue := lv.toNat
                       envelopeHolding := d.envelopeHolding.getD false
                       envelopeAttacking := d.envelopeAttacking.getD false
                       envelopeAlternating := d.envelopeAlternating.getD false
                       envelopeContinuing := d.envelopeContinuing.getD false }
              else none
            else none
          else none
        else none
      else none
    else none
  else none

/-- The `for i, gen_state in enumerate(...)` loop of
`AY38910Core.set_state`: list entries are applied to the three tone
generators in order (entries past index 2 are skipped); the first
failing entry aborts the loop with the earlier updates kept. -/
def applyToneStates (c : Core) : List ToneDict → Core × Bool
  | [] => (c, false)
  | d0 :: rest0 =>
    match c.tg0.setState d0 with
    | none => (c, true)
    | some g0 =>
      let c0 : Core := { c with tg0 := g0 }
      match rest0 with
      | [] => (c0, false)
      | d1 :: rest1 =>
        match c0.tg1.setState d1 with
        | none => (c0, true)
        | some g1 =>
          let c1 : Core := { c0 with tg1 := g1 }
          match rest1 with
          | [] => (c1, false)
          | d2 :: _ =>
            match c1.tg2.setState d2 with
            | none => (c1, true)
            | some g2 => ({ c1 with tg2 := g2 }, false)

/-- Model of `AY38910Core.set_state`: build and validate the basic
state (an exception there leaves the core untouched), then restore the
generator sub-states in order; the boolean records whether an exception
escaped, and the returned core is the state the Python object is left
in at that moment. -/
def Core.setState (c : Core) (d : StateDict) : Core × Bool :=
  match buildBasicChecked d with
  | none => (c, true)
  | some b =>
    let c1 : Core := { c with state := b }
    let r1 :=
      match d.toneGeneratorStates with
      | none => (c1, false)
      | some ts => applyToneStates c1 ts
    if r1.2 then r1
    else
      let c2 := r1.1
      let r2 :=
        match d.noiseGeneratorState with
        | none => (c2, false)
        | some nd =>
          let s := c2.noise.setState nd
          ({ c2 with noise := s.1 }, s.2)
      if r2.2 then r2
      else
        let c3 := r2.1
        match d.envelopeGeneratorState with
        | none => (c3, false)
        | some ed =>
          match c3.env.setState ed with
          | none => (c3, true)
          | some eg => ({ c3 with env := eg }, false)

/-! ## Derived definitions used by the claim statements -/

/-- The invariant of claim C10 on a tone generator. -/
def toneInv (g : ToneGen) : Prop :=
  1 ≤ g.counter ∧ g.counter ≤ (g.period : Int) ∧ 1 ≤ g.period ∧ g.period ≤ 4095

/-- The sum of the three per-channel amplitudes of a core state, the
quantity the final mix is built from. -/
def ampSum (c : Core) : ℚ :=
  channelAmp (c.state.toneOutputs.getD 0 false) c.state.noiseOutput
      (c.state.registers.getD 7 0) (c.state.registers.getD 8 0)
      c.state.envelopeLevel.toNat 0 +
    channelAmp (c.state.toneOutputs.getD 1 false) c.state.noiseOutput
      (c.state.registers.getD 7 0) (c.state.registers.getD 9 0)
      c.state.envelopeLevel.toNat 1 +
    channelAmp (c.state.toneOutputs.getD 2 false) c.state.noiseOutput
      (c.state.registers.getD 7 0) (c.state.registers.getD 10 0)
      c.state.envelopeLevel.toNat 2

/-- Number of indices `i` in `[1, n]` at which `(m + i) % d = 0`; with
`d = 16` (resp. 256) these are exactly the master-cycle increments at
which `AY38910Core.tick` runs the prescaled generator updates. -/
def countHits (m d : Int) : Nat → Nat
  | 0 => 0
  | n + 1 => countHits m d n + (if (m + (n + 1 : Nat)) % d = 0 then 1 else 0)

/-- Core after `write_register(12, 8)` on a fresh core: envelope period
2048 from R11 = 0, R12 = 8. -/
def c3core1 : Core := (writeRegister initCore 12 8).getD initCore

/-- The previous core after `write_register(13, 14)`: the R13 write
that claim C3 says leaves the effective envelope period unchanged. -/
def c3core2 : Core := (writeRegister c3core1 13 14).getD c3core1

/-- A fresh core after `write_register(13, 14)`: envelope shape 14. -/
def c9core : Core := (writeRegister initCore 13 14).getD initCore

/-- A core state in which only channel A is audible: tone A output
high, R8 = 15 (fixed full volume), all mixer-control bits 0. -/
def c2Core : Core :=
  { initCore with
      state := { initCore.state with
                   toneOutputs := [true, false, false]
                   registers := (List.replicate 16 0).set 8 15 } }

/-- A snapshot whose basic part is invalid: one register byte is 256. -/
def c8BadRegsDict : StateDict :=
  { emptyStateDict with
      registers := some [256, 0, 0, 0, 0, 0, 0, 0, 0, 0, 0, 0, 0, 0, 0, 0] }

/-- A snapshot with a valid (default) basic part and an invalid
envelope sub-state: level 99 is outside [0, 31]. -/
def c8BadEnvDict : StateDict :=
  { emptyStateDict with
      envelopeGeneratorState :=
        some { period := some 1, counter := some 0, level := some 99,
               shape := some 0, currentSegment := some 0,
               envelopeCounter := some 0, envelopePeriod := some 1 } }

/-! ## Claims -/

/-- C1 counterexample: with volume register 1 (bit 4 clear, fixed
volume k = 1) on a gated-on channel, the code looks up table index 1,
not the doubled index 2 the claim states; the two table entries differ
(418/65535 vs 608/65535). -/
theorem c1_counterexample : ampChannel true 1 0 ≠ ymFloat 2 := by
  norm_num [ampChannel, ymFloat, ymDacTable, List.getD]

/-- C1 (amended): a gated-on channel with volume-register bit 4 clear
has the amplitude of table entry `register & 0x0F` (the low four bits,
NOT doubled); with bit 4 set it has the table entry at the envelope
level; a gated-off channel contributes amplitude 0. -/
theorem c1_volume_mapping (volReg envLevel : Nat) :
    (volReg &&& 16 = 0 →
      ampChannel true volReg envLevel = ymFloat (volReg &&& 15)) ∧
    ((volReg &&& 16) ≠ 0 →
      ampChannel true volReg envLevel = ymFloat envLevel) ∧
    ampChannel false volReg envLevel = 0 := by
  refine ⟨fun h => ?_, fun h => ?_, rfl⟩ <;> simp [ampChannel, h]

/-- C1 witness: the amended mapping evaluated at volume register 1
(fixed-volume mode) and 17 (envelope mode, envelope level 5). -/
theorem c1_witness :
    ampChannel true 1 5 = ymFloat 1 ∧ ampChannel true 17 5 = ymFloat 5 :=
  ⟨(c1_volume_mapping 1 5).1 (by decide), (c1_volume_mapping 17 5).2.1 (by decide)⟩

/-- C3: evaluation of the code at the failing input.  After
`write_register(12, 8)` the effective envelope period is 2048; the
subsequent `write_register(13, 14)` does perform the retrigger resets
(sub-counter 0, segment 0, level 31) but ALSO resets the effective
envelope period to 1, contradicting the claim that the R11/R12 period
is unchanged by an R13 write. -/
theorem c3_envelope_period_clobbered :
    c3core1.env.envPeriod = 2048 ∧
    c3core2.env.envCounter = 0 ∧
    c3core2.env.segment = 0 ∧
    c3core2.env.level = 31 ∧
    c3core2.env.shape = 14 ∧
    c3core2.env.envPeriod = 1 := by decide

/-- C9 counterexample: on a fresh core whose envelope shape was set to
14 via R13, `reset()` leaves the noise generator counter at 0 (not at
its period 1), leaves the noise output high (the LFSR seed 1 has bit 0
set), keeps envelope shape 14, and the published `lfsr_value` state
field reverts to its dataclass default 131071 rather than 1. -/
theorem c9_counterexample :
    ¬ ((coreReset c9core).noise.counter = (coreReset c9core).noise.period ∧
       (coreReset c9core).noise.output = false ∧
       (coreReset c9core).env.shape = 0 ∧
       (coreReset c9core).state.lfsrValue = 1) := by decide

/-- C9 (amended): after `reset()` the published basic state is the
dataclass default (all 16 registers 0, master-cycle counter 0, tone
outputs low, published envelope level 31); each tone generator has its
counter reloaded to its period with output low; the noise generator
counter is 0 (not its period), its LFSR holds its initial seed again
and its output is that seed's bit 0 (high for the default seed 1); the
envelope level is 31 with sub-counter 0 and effective period reset to
1, and the envelope shape keeps its previous value. -/
theorem c9_reset_state (c : Core) :
    (coreReset c).state = initBasicState ∧
    (coreReset c).tg0.counter = ((coreReset c).tg0.period : Int) ∧
    (coreReset c).tg0.output = false ∧
    (coreReset c).tg1.counter = ((coreReset c).tg1.period : Int) ∧
    (coreReset c).tg1.output = false ∧
    (coreReset c).tg2.counter = ((coreReset c).tg2.period : Int) ∧
    (coreReset c).tg2.output = false ∧
    (coreReset c).noise.counter = 0 ∧
    (coreReset c).noise.lfsr.value = c.noise.lfsr.initialValue ∧
    (coreReset c).noise.output = (coreReset c).noise.lfsr.getOutput ∧
    (coreReset c).env.level = 31 ∧
    (coreReset c).env.envCounter = 0 ∧
    (coreReset c).env.envPeriod = 1 ∧
    (coreReset c).env.segment = 0 ∧
    (coreReset c).env.counter = ((coreReset c).env.period : Int) ∧
    (coreReset c).env.shape = c.env.shape ∧
    (coreReset initCore).noise.lfsr.value = 1 := by
  refine ⟨rfl, rfl, rfl, rfl, rfl, rfl, rfl, rfl, rfl, rfl, rfl, rfl, rfl, rfl, rfl, rfl, rfl⟩

/-- Helper for C10: while the counter stays positive, each prescaled
tone cycle just decrements it, leaving period and output alone. -/
theorem tone_iter_counter (g : ToneGen) :
    ∀ j : Nat, (j : Int) < g.counter →
      ToneGen.update1^[j] g = { g with counter := g.counter - j } := by
  intro j
  induction j with
  | zero => intro _; simp
  | succ j ih =>
    intro hj
    have hj' : (j : Int) < g.counter := by push_cast at hj ⊢; omega
    rw [Function.iterate_succ_apply', ih hj']
    have hpos : ¬ (g.counter - (j : Int) - 1 ≤ 0) := by push_cast at hj; omega
    simp only [ToneGen.update1, hpos, if_false]
    congr 1
    push_cast
    ring

/-- Unfolding lemma for `ToneGen.update1`. -/
theorem ToneGen.toneUpdate1_def (g : ToneGen) :
    g.update1 =
      if g.counter - 1 ≤ 0 then
        { g with output := !g.output, counter := (g.period : Int) }
      else { g with counter := g.counter - 1 } := rfl

/-- Unfolding lemma for `ToneGen.setPeriod`. -/
theorem ToneGen.setPeriod_def (g : ToneGen) (fine coarse : Nat) :
    g.setPeriod fine coarse =
      { g with period := max 1 ((coarse <<< 8) ||| fine),
               counter :=
                 if g.counter > ((max 1 ((coarse <<< 8) ||| fine) : Nat) : Int)
                 then ((max 1 ((coarse <<< 8) ||| fine) : Nat) : Int)
                 else g.counter } := rfl

/-- C10: the tone-generator invariant 1 ≤ counter ≤ period with
period in [1, 4095] is established by construction and preserved by
`update(1)` and by `set_period`; moreover, starting from any state in
the invariant the output flips after exactly `counter` more prescaled
cycles (and not before), hence within one effective period. -/
theorem c10_tone_invariant :
    (∀ p : Nat, 1 ≤ p → p ≤ 4095 → toneInv (ToneGen.init p)) ∧
    (∀ g : ToneGen, toneInv g → toneInv g.update1) ∧
    (∀ (g : ToneGen) (fine coarse : Nat), fine ≤ 255 → coarse ≤ 15 →
      toneInv g → toneInv (g.setPeriod fine coarse)) ∧
    (∀ g : ToneGen, toneInv g →
      (ToneGen.update1^[g.counter.toNat] g).output = !g.output ∧
      ∀ j : Nat, j < g.counter.toNat →
        (ToneGen.update1^[j] g).output = g.output) := by
  refine ⟨?_, ?_, ?_, ?_⟩
  · intro p h1 h2
    refine ⟨?_, le_refl _, h1, h2⟩
    show (1 : Int) ≤ (p : Int)
    exact_mod_cast h1
  · rintro g ⟨h1, h2, h3, h4⟩
    rw [ToneGen.toneUpdate1_def]
    split_ifs with h
    · refine ⟨?_, le_refl _, h3, h4⟩
      show (1 : Int) ≤ (g.period : Int)
      exact_mod_cast h3
    · refine ⟨?_, ?_, h3, h4⟩ <;> dsimp only <;> omega
  · rintro g fine coarse hf hc ⟨h1, h2, h3, h4⟩
    rw [ToneGen.setPeriod_def]
    have hlt : (coarse <<< 8) ||| fine < 2 ^ 12 := by
      apply Nat.or_lt_two_pow
      · rw [Nat.shiftLeft_eq]
        omega
      · omega
    have hp1 : 1 ≤ max 1 ((coarse <<< 8) ||| fine) := le_max_left _ _
    have hp2 : max 1 ((coarse <<< 8) ||| fine) ≤ 4095 := by omega
    have hp1z : (1 : Int) ≤ ((max 1 ((coarse <<< 8) ||| fine) : Nat) : Int) := by
      exact_mod_cast hp1
    refine ⟨?_, ?_, ?_, ?_⟩ <;> dsimp only <;>
      first
      | exact hp1
      | exact hp2
      | (split_ifs with h
         <;> first
           | exact hp1z
           | exact h1
           | exact le_refl _
           | omega)
  · rintro g ⟨h1, h2, h3, h4⟩
    have hk : 1 ≤ g.counter.toNat := by omega
    constructor
    · have hstep : g.counter.toNat = (g.counter.toNat - 1) + 1 := by omega
      rw [hstep, Function.iterate_succ_apply',
        tone_iter_counter g (g.counter.toNat - 1) (by push_cast; omega)]
      have hone : g.counter - ((g.counter.toNat - 1 : Nat) : Int) - 1 ≤ 0 := by
        push_cast
        omega
      rw [ToneGen.toneUpdate1_def]
      simp only [hone, if_pos]
    · intro j hj
      rw [tone_iter_counter g j (by push_cast; omega)]

/-- Helper: `_reset_segment` always lands the level on 31 or 0. -/
theorem EnvGen.resetSegment_level (g : EnvGen) :
    g.resetSegment.level = 31 ∨ g.resetSegment.level = 0 := by
  unfold EnvGen.resetSegment
  rcases segAt g.shape g.segment <;> simp

/-- Unfolding lemma for `EnvGen.update1`. -/
theorem EnvGen.envUpdate1_def (g : EnvGen) :
    g.update1 =
      if g.envCounter + 1 ≥ g.envPeriod then
        { (match segAt g.shape g.segment with
           | .slideDown => EnvGen.slideDown { g with envCounter := g.envCounter + 1 }
           | .slideUp => EnvGen.slideUp { g with envCounter := g.envCounter + 1 }
           | .holdBottom => { g with envCounter := g.envCounter + 1, level := 0 }
           | .holdTop => { g with envCounter := g.envCounter + 1, level := 31 })
          with envCounter := 0 }
      else { g with envCounter := g.envCounter + 1 } := rfl

/-- Unfolding lemma for `EnvGen.slideDown`. -/
theorem EnvGen.slideDown_def (g : EnvGen) :
    g.slideDown =
      if g.level - 1 < 0 then
        ({ g with level := g.level - 1, segment := g.segment ^^^ 1 }).resetSegment
      else { g with level := g.level - 1 } := rfl

/-- Unfolding lemma for `EnvGen.slideUp`. -/
theorem EnvGen.slideUp_def (g : EnvGen) :
    g.slideUp =
      if g.level + 1 > 31 then
        ({ g with level := g.level + 1, segment := g.segment ^^^ 1 }).resetSegment
      else { g with level := g.level + 1 } := rfl

/-- Helper: `_slide_down` keeps a level in [0, 31] inside [0, 31]. -/
theorem EnvGen.slideDown_level (g : EnvGen) (h0 : 0 ≤ g.level)
    (h31 : g.level ≤ 31) : 0 ≤ g.slideDown.level ∧ g.slideDown.level ≤ 31 := by
  rw [EnvGen.slideDown_def]
  split_ifs with h
  · rcases EnvGen.resetSegment_level
      { g with level := g.level - 1, segment := g.segment ^^^ 1 } with hr | hr <;>
      rw [hr] <;> omega
  · dsimp only
    omega

/-- Helper: `_slide_up` keeps a level in [0, 31] inside [0, 31]. -/
theorem EnvGen.slideUp_level (g : EnvGen) (h0 : 0 ≤ g.level)
    (h31 : g.level ≤ 31) : 0 ≤ g.slideUp.level ∧ g.slideUp.level ≤ 31 := by
  rw [EnvGen.slideUp_def]
  split_ifs with h
  · rcases EnvGen.resetSegment_level
      { g with level := g.level + 1, segment := g.segment ^^^ 1 } with hr | hr <;>
      rw [hr] <;> omega
  · dsimp only
    omega

/-- Helper: one prescaled envelope cycle keeps the level in [0, 31]. -/
theorem env_level_step (g : EnvGen) (h0 : 0 ≤ g.level) (h31 : g.level ≤ 31) :
    0 ≤ g.update1.level ∧ g.update1.level ≤ 31 := by
  rw [EnvGen.envUpdate1_def]
  split_ifs with h
  · rcases hseg : segAt g.shape g.segment <;> simp only [hseg]
    · exact EnvGen.slideDown_level { g with envCounter := g.envCounter + 1 } h0 h31
    · exact EnvGen.slideUp_level { g with envCounter := g.envCounter + 1 } h0 h31
    · exact ⟨le_refl 0, by norm_num⟩
    · exact ⟨by norm_num, le_refl 31⟩
  · exact ⟨h0, h31⟩

/-- C6: for every shape s in [0, 15] and period p in [1, 65535]
programmed into a fresh envelope generator, the level observed through
`get_level()` stays in [0, 31] after any number of prescaled update
cycles. -/
theorem c6_envelope_level_bounds (s p n : Nat) (hs : s ≤ 15) (hp1 : 1 ≤ p)
    (hp2 : p ≤ 65535) :
    0 ≤ (EnvGen.update1^[n] (((EnvGen.init 1 0).setShape s).setPeriodDirect p)).level ∧
    (EnvGen.update1^[n] (((EnvGen.init 1 0).setShape s).setPeriodDirect p)).level ≤ 31 := by
  induction n with
  | zero =>
    constructor <;>
      simp [EnvGen.init, EnvGen.setShape, EnvGen.resetShapeState,
        EnvGen.setPeriodDirect, EnvGen.setEnvelopePeriod]
  | succ n ih =>
    rw [Function.iterate_succ_apply']
    exact env_level_step _ ih.1 ih.2

/-- C6 witness: shape 14 (triangle), period 2048, five prescaled
cycles. -/
theorem c6_witness :
    (14 ≤ 15 ∧ 1 ≤ 2048 ∧ 2048 ≤ 65535) ∧
    (0 ≤ (EnvGen.update1^[5] (((EnvGen.init 1 0).setShape 14).setPeriodDirect 2048)).level ∧
     (EnvGen.update1^[5] (((EnvGen.init 1 0).setShape 14).setPeriodDirect 2048)).level ≤ 31) :=
  ⟨⟨by decide, by decide, by decide⟩,
   c6_envelope_level_bounds 14 2048 5 (by decide) (by decide) (by decide)⟩

/-- Helper: successor of a value below the modulus. -/
theorem mod_div_succ_lt (n m : Nat) (hm : 0 < m) (h : n % m + 1 < m) :
    (n + 1) % m = n % m + 1 ∧ (n + 1) / m = n / m := by
  have key : n + 1 = m * (n / m) + (n % m + 1) := by
    rw [← Nat.add_assoc, Nat.div_add_mod]
  constructor
  · rw [key, Nat.mul_add_mod, Nat.mod_eq_of_lt h]
  · rw [key, Nat.mul_add_div hm, Nat.div_eq_of_lt h, Nat.add_zero]

/-- Helper: successor reaching the modulus. -/
theorem mod_div_succ_eq (n m : Nat) (hm : 0 < m) (h : n % m + 1 = m) :
    (n + 1) % m = 0 ∧ (n + 1) / m = n / m + 1 := by
  have key : n + 1 = m * (n / m + 1) := by
    have hd := Nat.div_add_mod n m
    rw [Nat.mul_succ]
    omega
  constructor
  · rw [key, Nat.mul_mod_right]
  · rw [key, Nat.mul_div_cancel_left _ hm]

/-- Unfolding lemma for `NoiseGen.update1`. -/
theorem NoiseGen.noiseUpdate1_def (g : NoiseGen) :
    g.update1 =
      if g.counter + 1 ≥ g.period <<< 1 then
        { g with lfsr := g.lfsr.step.1, output := g.lfsr.step.2, counter := 0 }
      else { g with counter := g.counter + 1 } := rfl

/-- Helper for C5: with period p ≥ 1 fixed and the counter starting at
0, after n prescaled cycles the counter is `n % (2p)`, the LFSR value
has advanced `n / (2p)` times, and the latched output tracks the LFSR
bit 0. -/
theorem noise_iter (p : Nat) (hp : 1 ≤ p) :
    ∀ (n : Nat) (g : NoiseGen), g.period = p → g.counter = 0 →
      g.output = g.lfsr.getOutput →
      (NoiseGen.update1^[n] g).counter = n % (2 * p) ∧
      (NoiseGen.update1^[n] g).lfsr.value = lfsrStep^[n / (2 * p)] g.lfsr.value ∧
      (NoiseGen.update1^[n] g).period = p ∧
      (NoiseGen.update1^[n] g).output = (NoiseGen.update1^[n] g).lfsr.getOutput := by
  have h2p : 0 < 2 * p := by omega
  intro n
  induction n with
  | zero =>
    intro g hper hcnt hout
    refine ⟨?_, ?_, hper, hout⟩
    · simpa using hcnt
    · simp
  | succ n ih =>
    intro g hper hcnt hout
    obtain ⟨ic, iv, ip, io⟩ := ih g hper hcnt hout
    rw [Function.iterate_succ_apply', NoiseGen.noiseUpdate1_def]
    have hsh : (NoiseGen.update1^[n] g).period <<< 1 = 2 * p := by
      rw [ip, Nat.shiftLeft_eq]
      ring
    have hmlt : n % (2 * p) < 2 * p := Nat.mod_lt _ h2p
    by_cases hc : n % (2 * p) + 1 = 2 * p
    · have hcond : (NoiseGen.update1^[n] g).counter + 1
          ≥ (NoiseGen.update1^[n] g).period <<< 1 := by
        rw [hsh, ic, hc]
      rw [if_pos hcond]
      obtain ⟨hm, hdv⟩ := mod_div_succ_eq n (2 * p) h2p hc
      refine ⟨?_, ?_, ip, rfl⟩
      · show (0 : Nat) = (n + 1) % (2 * p)
        rw [hm]
      · show (NoiseGen.update1^[n] g).lfsr.step.1.value
          = lfsrStep^[(n + 1) / (2 * p)] g.lfsr.value
        rw [hdv, Function.iterate_succ_apply']
        show lfsrStep ((NoiseGen.update1^[n] g).lfsr.value) = _
        rw [iv]
    · have hlt : n % (2 * p) + 1 < 2 * p := by omega
      have hcond : ¬ ((NoiseGen.update1^[n] g).counter + 1
          ≥ (NoiseGen.update1^[n] g).period <<< 1) := by
        rw [hsh, ic]
        omega
      rw [if_neg hcond]
      obtain ⟨hm, hdv⟩ := mod_div_succ_lt n (2 * p) h2p hlt
      refine ⟨?_, ?_, ip, io⟩
      · show (NoiseGen.update1^[n] g).counter + 1 = (n + 1) % (2 * p)
        rw [ic, hm]
      · show (NoiseGen.update1^[n] g).lfsr.value
          = lfsrStep^[(n + 1) / (2 * p)] g.lfsr.value
        rw [hdv, iv]

/-- C5: after `set_period(p)` with p in [1, 31], the noise generator
advances the LFSR exactly once every 2p prescaled cycles: after n
cycles the internal counter is `n mod 2p` (so the LFSR fires on the
2p-th cycle and the counter returns to 0), the LFSR value has been
stepped exactly `n div 2p` times, the stored period is p, and the
latched output is always the LFSR bit 0. -/
theorem c5_noise_double_period (g : NoiseGen) (p : Nat) (hp1 : 1 ≤ p)
    (hp31 : p ≤ 31) (hout : g.output = g.lfsr.getOutput) (n : Nat) :
    (NoiseGen.update1^[n] (g.setPeriod p)).counter = n % (2 * p) ∧
    (NoiseGen.update1^[n] (g.setPeriod p)).lfsr.value
      = lfsrStep^[n / (2 * p)] g.lfsr.value ∧
    (NoiseGen.update1^[n] (g.setPeriod p)).period = p ∧
    (NoiseGen.update1^[n] (g.setPeriod p)).output
      = (NoiseGen.update1^[n] (g.setPeriod p)).lfsr.getOutput := by
  have hper : (g.setPeriod p).period = p := by
    simp only [NoiseGen.setPeriod]
    omega
  have hres := noise_iter p hp1 n (g.setPeriod p) hper rfl hout
  simpa [NoiseGen.setPeriod] using hres

/-- C5 witness: period 3 set on a fresh noise generator, run for 6 = 2p
prescaled cycles: the counter has wrapped to 0 and the LFSR has stepped
exactly once. -/
theorem c5_witness :
    (1 ≤ 3 ∧ 3 ≤ 31 ∧ NoiseGen.init.output = NoiseGen.init.lfsr.getOutput) ∧
    ((NoiseGen.update1^[6] (NoiseGen.init.setPeriod 3)).counter = 6 % (2 * 3) ∧
     (NoiseGen.update1^[6] (NoiseGen.init.setPeriod 3)).lfsr.value
       = lfsrStep^[6 / (2 * 3)] NoiseGen.init.lfsr.value ∧
     (NoiseGen.update1^[6] (NoiseGen.init.setPeriod 3)).period = 3 ∧
     (NoiseGen.update1^[6] (NoiseGen.init.setPeriod 3)).output
       = (NoiseGen.update1^[6] (NoiseGen.init.setPeriod 3)).lfsr.getOutput) :=
  ⟨⟨by decide, by decide, by decide⟩,
   c5_noise_double_period NoiseGen.init 3 (by decide) (by decide) (by decide) 6⟩

/-- Unfolding lemma for `coreCycle`. -/
theorem coreCycle_def (c : Core) :
    coreCycle c =
      (if (c.state.masterClock + 1) % 256 = 0 then
        coreEnvUpdate
          (if (c.state.masterClock + 1) % 16 = 0 then
            coreAudioUpdate
              { c with state := { c.state with masterClock := c.state.masterClock + 1 } }
           else
            { c with state := { c.state with masterClock := c.state.masterClock + 1 } })
       else
        (if (c.state.masterClock + 1) % 16 = 0 then
          coreAudioUpdate
            { c with state := { c.state with masterClock := c.state.masterClock + 1 } }
         else
          { c with state := { c.state with masterClock := c.state.masterClock + 1 } })) := by
  show coreCycle c = _
  unfold coreCycle
  by_cases h16 : (c.state.masterClock + 1) % 16 = 0 <;>
    by_cases h256 : (c.state.masterClock + 1) % 256 = 0 <;>
      simp [h16, h256]

/-- Helper for C4: the observable effect of one master cycle. -/
theorem coreCycle_spec (c : Core) :
    (coreCycle c).state.masterClock = c.state.masterClock + 1 ∧
    (coreCycle c).state.registers = c.state.registers ∧
    ((coreCycle c).tg0, (coreCycle c).tg1, (coreCycle c).tg2, (coreCycle c).noise)
      = (if (c.state.masterClock + 1) % 16 = 0 then
           audioStep c.state.registers (c.tg0, c.tg1, c.tg2, c.noise)
         else (c.tg0, c.tg1, c.tg2, c.noise)) ∧
    (coreCycle c).env
      = (if (c.state.masterClock + 1) % 256 = 0 then c.env.update1 else c.env) := by
  rw [coreCycle_def]
  by_cases h16 : (c.state.masterClock + 1) % 16 = 0 <;>
    by_cases h256 : (c.state.masterClock + 1) % 256 = 0 <;>
      simp [h16, h256, coreAudioUpdate, coreEnvUpdate, audioStep]

/-- Helper for C4: cumulative effect of n master cycles. -/
theorem coreCycle_iter_spec (c : Core) (n : Nat) :
    (coreCycle^[n] c).state.masterClock = c.state.masterClock + n ∧
    (coreCycle^[n] c).state.registers = c.state.registers ∧
    ((coreCycle^[n] c).tg0, (coreCycle^[n] c).tg1, (coreCycle^[n] c).tg2,
        (coreCycle^[n] c).noise)
      = (audioStep c.state.registers)^[countHits c.state.masterClock 16 n]
          (c.tg0, c.tg1, c.tg2, c.noise) ∧
    (coreCycle^[n] c).env
      = EnvGen.update1^[countHits c.state.masterClock 256 n] c.env := by
  induction n with
  | zero =>
    refine ⟨?_, rfl, rfl, rfl⟩
    simp
  | succ n ih =>
    obtain ⟨im, ir, ia, ie⟩ := ih
    rw [Function.iterate_succ_apply']
    obtain ⟨sm, sr, sa, se⟩ := coreCycle_spec (coreCycle^[n] c)
    have hm : (coreCycle^[n] c).state.masterClock + 1
        = c.state.masterClock + (n + 1 : Nat) := by
      rw [im]
      push_cast
      ring
    refine ⟨?_, ?_, ?_, ?_⟩
    · rw [sm, hm]
    · rw [sr, ir]
    · rw [sa, hm, ir, ia]
      show _ = (audioStep c.state.registers)^[countHits c.state.masterClock 16 n
          + (if (c.state.masterClock + (n + 1 : Nat)) % 16 = 0 then 1 else 0)] _
      by_cases h : (c.state.masterClock + (n + 1 : Nat)) % 16 = 0
      · rw [if_pos h, if_pos h, Function.iterate_succ_apply']
      · rw [if_neg h, if_neg h, Nat.add_zero]
    · rw [se, hm, ie]
      show _ = EnvGen.update1^[countHits c.state.masterClock 256 n
          + (if (c.state.masterClock + (n + 1 : Nat)) % 256 = 0 then 1 else 0)] _
      by_cases h : (c.state.masterClock + (n + 1 : Nat)) % 256 = 0
      · rw [if_pos h, if_pos h, Function.iterate_succ_apply']
      · rw [if_neg h, if_neg h, Nat.add_zero]

/-- C4: `tick(N)` consumes and returns exactly N master cycles,
increments the master-clock counter by N, leaves the register file
alone, advances the three tone generators and the noise generator by
one prescaled cycle at exactly the increments where the counter is
divisible by 16, and advances the envelope generator at exactly the
increments where the counter is divisible by 256. -/
theorem c4_tick_prescalers (c : Core) (n : Nat) :
    (coreTick c n).2 = n ∧
    (coreTick c n).1.state.masterClock = c.state.masterClock + n ∧
    (coreTick c n).1.state.registers = c.state.registers ∧
    ((coreTick c n).1.tg0, (coreTick c n).1.tg1, (coreTick c n).1.tg2,
        (coreTick c n).1.noise)
      = (audioStep c.state.registers)^[countHits c.state.masterClock 16 n]
          (c.tg0, c.tg1, c.tg2, c.noise) ∧
    (coreTick c n).1.env
      = EnvGen.update1^[countHits c.state.masterClock 256 n] c.env :=
  ⟨rfl, coreCycle_iter_spec c n⟩

/-- C8 counterexample: restoring a snapshot whose basic part is valid
(all keys absent, so defaults apply) but whose envelope sub-state is
invalid (level 99) raises an error AND leaves the core changed: the
basic state has already been replaced by the defaults before the
envelope restore fails, so `set_state` is not transactional. -/
theorem c8_counterexample :
    (Core.setState initCore c8BadEnvDict).2 = true ∧
    (Core.setState initCore c8BadEnvDict).1 ≠ initCore := by decide

/-- C8 (amended): only the basic portion of `set_state` is
transactional: if validation of the (provided or default) basic fields
fails, the call raises with the core completely unchanged.  An invalid
generator sub-state also raises, but only after the basic state and any
earlier generator states have been replaced, and missing keys are not
errors at all (defaults are substituted), so the claim's "any invalid
dictionary leaves the core unchanged" does not hold in general. -/
theorem c8_basic_validation_transactional (c : Core) (d : StateDict)
    (h : buildBasicChecked d = none) : Core.setState c d = (c, true) := by
  simp [Core.setState, h]

/-- C8 witness: a snapshot with register byte 256 fails basic
validation, and restoring it on a fresh core raises and changes
nothing. -/
theorem c8_witness :
    buildBasicChecked c8BadRegsDict = none ∧
    Core.setState initCore c8BadRegsDict = (initCore, true) :=
  ⟨by decide,
   c8_basic_validation_transactional initCore c8BadRegsDict (by decide)⟩

/-- Helper: the two centre pan coefficients coincide. -/
theorem panLeft_eq_panRight : panLeftC = panRightC := by
  unfold panLeftC panRightC
  norm_num

theorem panRightC_nonneg : 0 ≤ panRightC := Real.sqrt_nonneg _

theorem panRightC_sq : panRightC ^ 2 = 1 / 2 :=
  Real.sq_sqrt (by norm_num)

theorem panRightC_lt_one : panRightC < 1 := by
  nlinarith [panRightC_nonneg, panRightC_sq]

/-- Helper: clamping is the identity inside the audio range. -/
theorem clamp1_of_mem {x : ℝ} (h1 : -1 ≤ x) (h2 : x ≤ 1) : clamp1 x = x := by
  unfold clamp1
  rw [min_eq_right h2, max_eq_right h1]

theorem clamp1_low (x : ℝ) : -1 ≤ clamp1 x := le_max_left _ _

theorem clamp1_high (x : ℝ) : clamp1 x ≤ 1 :=
  max_le (by norm_num) (min_le_left _ _)

/-- Helper: with the centre equal-power panning installed by the
constructor, the mono mix collapses to a single clamp of the amplitude
sum scaled by `sqrt(1/2)`. -/
theorem mixer_center_eq (t0 t1 t2 noise : Bool) (ctl v0 v1 v2 envLevel : Nat) :
    mixerMixedOutput t0 t1 t2 noise ctl v0 v1 v2 envLevel
      = clamp1 (((channelAmp t0 noise ctl v0 envLevel 0
                  + channelAmp t1 noise ctl v1 envLevel 1
                  + channelAmp t2 noise ctl v2 envLevel 2 : ℚ) : ℝ) * panRightC) := by
  unfold mixerMixedOutput stereoLeft stereoRight
  rw [panLeft_eq_panRight]
  have harg : (0 : ℝ) + (channelAmp t0 noise ctl v0 envLevel 0 : ℝ) * panRightC
      + (channelAmp t1 noise ctl v1 envLevel 1 : ℝ) * panRightC
      + (channelAmp t2 noise ctl v2 envLevel 2 : ℝ) * panRightC
      = ((channelAmp t0 noise ctl v0 envLevel 0
          + channelAmp t1 noise ctl v1 envLevel 1
          + channelAmp t2 noise ctl v2 envLevel 2 : ℚ) : ℝ) * panRightC := by
    push_cast
    ring
  rw [harg]
  ring

/-- Helper: `get_mixed_output` in terms of the amplitude sum. -/
theorem coreMixedOutput_center (c : Core) (vs : ℝ) :
    coreMixedOutput c vs = clamp1 (((ampSum c : ℚ) : ℝ) * panRightC) * vs := by
  unfold coreMixedOutput
  rw [mixer_center_eq]
  rfl

/-- Helper: the specification formula in terms of the amplitude sum. -/
theorem specMixedOutput_eq (c : Core) (vs : ℝ) :
    specMixedOutput c vs = clamp1 (((ampSum c : ℚ) : ℝ) * vs) := by
  unfold specMixedOutput
  unfold ampSum
  push_cast
  ring_nf

/-- C2 counterexample: in a state where only channel A sounds at fixed
volume 15 (amplitude 32768/65535) and with volume_scale 1, the code
returns `clamp(sum * sqrt(1/2)) * 1` while the claim demands
`clamp(sum * 1)`; the two differ because `sqrt(1/2) < 1`. -/
theorem c2_counterexample : coreMixedOutput c2Core 1 ≠ specMixedOutput c2Core 1 := by
  have hamp : ampSum c2Core = (32768 : ℚ) / 65535 := by
    have h7 : c2Core.state.registers.getD 7 0 = 0 := by decide
    have h8 : c2Core.state.registers.getD 8 0 = 15 := by decide
    have h9 : c2Core.state.registers.getD 9 0 = 0 := by decide
    have h10 : c2Core.state.registers.getD 10 0 = 0 := by decide
    have ht0 : c2Core.state.toneOutputs.getD 0 false = true := by decide
    have ht1 : c2Core.state.toneOutputs.getD 1 false = false := by decide
    have ht2 : c2Core.state.toneOutputs.getD 2 false = false := by decide
    have hn : c2Core.state.noiseOutput = true := by decide
    have henv : c2Core.state.envelopeLevel.toNat = 31 := by decide
    have m0 : mixedChannel true true 0 0 = true := by decide
    have m1 : mixedChannel false true 0 1 = true := by decide
    have m2 : mixedChannel false true 0 2 = true := by decide
    have a0 : ampChannel true 15 31 = ymFloat 15 := by
      simp [ampChannel, show ((15 &&& 16 : Nat) != 0) = false from by decide,
        show (15 &&& 15 : Nat) = 15 from by decide]
    have hym0 : ymFloat 0 = 0 := by
      unfold ymFloat
      rw [show ymDacTable.getD 0 0 = 0 from by decide]
      norm_num
    have a12 : ampChannel true 0 31 = 0 := by
      simp [ampChannel, show ((0 &&& 16 : Nat) != 0) = false from by decide,
        show (0 &&& 15 : Nat) = 0 from by decide, hym0]
    have hym : ymFloat 15 = (32768 : ℚ) / 65535 := by
      unfold ymFloat
      rw [show ymDacTable.getD 15 0 = 32768 from by decide]
      norm_num
    unfold ampSum
    rw [h7, h8, h9, h10, ht0, ht1, ht2, hn, henv]
    unfold channelAmp
    rw [m0, m1, m2, a0, a12, hym]
    ring
  rw [coreMixedOutput_center, specMixedOutput_eq, hamp]
  have hA0 : (0 : ℝ) < ((32768 : ℚ) / 65535 : ℚ) := by norm_num
  have hA1 : (((32768 : ℚ) / 65535 : ℚ) : ℝ) ≤ 1 := by norm_num
  set A : ℝ := (((32768 : ℚ) / 65535 : ℚ) : ℝ) with hA
  have hA0r : (0 : ℝ) < A := by exact_mod_cast hA0
  have hs0 := panRightC_nonneg
  have hs1 := panRightC_lt_one
  have hclamp1 : clamp1 (A * panRightC) = A * panRightC := by
    apply clamp1_of_mem
    · nlinarith
    · nlinarith
  have hclamp2 : clamp1 (A * 1) = A := by
    rw [mul_one]
    apply clamp1_of_mem
    · nlinarith
    · exact hA1
  rw [hclamp1, hclamp2, mul_one]
  intro h
  nlinarith

/-- C2 (amended): `get_mixed_output()` equals the sum of the three
per-channel amplitudes multiplied by the centre equal-power pan
coefficient `sqrt(1/2)`, clamped to [-1, 1], and THEN multiplied by the
configured volume_scale; for volume_scale in [0, 1] the result still
lies in [-1, 1]. -/
theorem c2_mixed_output_shape (c : Core) (vs : ℝ) (h0 : 0 ≤ vs) (h1 : vs ≤ 1) :
    coreMixedOutput c vs = clamp1 (((ampSum c : ℚ) : ℝ) * panRightC) * vs ∧
    -1 ≤ coreMixedOutput c vs ∧ coreMixedOutput c vs ≤ 1 := by
  refine ⟨coreMixedOutput_center c vs, ?_, ?_⟩ <;>
    rw [coreMixedOutput_center c vs]
  · nlinarith [clamp1_low (((ampSum c : ℚ) : ℝ) * panRightC),
      clamp1_high (((ampSum c : ℚ) : ℝ) * panRightC)]
  · nlinarith [clamp1_low (((ampSum c : ℚ) : ℝ) * panRightC),
      clamp1_high (((ampSum c : ℚ) : ℝ) * panRightC)]

/-- C2 witness: the amended statement at the concrete state `c2Core`
with volume_scale 1. -/
theorem c2_witness :
    (0 : ℝ) ≤ 1 ∧ (1 : ℝ) ≤ 1 ∧
    (coreMixedOutput c2Core 1
        = clamp1 (((ampSum c2Core : ℚ) : ℝ) * panRightC) * 1 ∧
      -1 ≤ coreMixedOutput c2Core 1 ∧ coreMixedOutput c2Core 1 ≤ 1) :=
  ⟨by norm_num, by norm_num,
   c2_mixed_output_shape c2Core 1 (by norm_num) (by norm_num)⟩

set_option maxRecDepth 40000 in
set_option maxHeartbeats 8000000 in
/-- Helper for C7: the LFSR value update returns to the seed 1 after
exactly 131071 = 2^17 - 1 steps (computed in chunks of 512). -/
theorem lfsr_cycle_seed_one : lfsrStep^[131071] 1 = 1 := by
  have h0 : lfsrStep^[512] 1 = 51357 := by decide
  have h1 : lfsrStep^[512] 51357 = 75888 := by decide
  have h2 : lfsrStep^[512] 75888 = 39829 := by decide
  have h3 : lfsrStep^[512] 39829 = 34336 := by decide
  have h4 : lfsrStep^[512] 34336 = 93723 := by decide
  have h5 : lfsrStep^[512] 93723 = 25766 := by decide
  have h6 : lfsrStep^[512] 25766 = 109192 := by decide
  have h7 : lfsrStep^[512] 109192 = 74842 := by decide
  have h8 : lfsrStep^[512] 74842 = 49860 := by decide
  have h9 : lfsrStep^[512] 49860 = 55871 := by decide
  have h10 : lfsrStep^[512] 55871 = 68270 := by decide
  have h11 : lfsrStep^[512] 68270 = 7773 := by decide
  have h12 : lfsrStep^[512] 7773 = 94529 := by decide
  have h13 : lfsrStep^[512] 94529 = 127859 := by decide
  have h14 : lfsrStep^[512] 127859 = 127134 := by decide
  have h15 : lfsrStep^[512] 127134 = 33548 := by decide
  have h16 : lfsrStep^[512] 33548 = 127858 := by decide
  have h17 : lfsrStep^[512] 127858 = 79875 := by decide
  have h18 : lfsrStep^[512] 79875 = 109436 := by decide
  have h19 : lfsrStep^[512] 109436 = 92391 := by decide
  have h20 : lfsrStep^[512] 92391 = 114211 := by decide
  have h21 : lfsrStep^[512] 114211 = 50535 := by decide
  have h22 : lfsrStep^[512] 50535 = 68673 := by decide
  have h23 : lfsrStep^[512] 68673 = 5291 := by decide
  have h24 : lfsrStep^[512] 5291 = 123197 := by decide
  have h25 : lfsrStep^[512] 123197 = 118405 := by decide
  have h26 : lfsrStep^[512] 118405 = 52884 := by decide
  have h27 : lfsrStep^[512] 52884 = 60307 := by decide
  have h28 : lfsrStep^[512] 60307 = 119000 := by decide
  have h29 : lfsrStep^[512] 119000 = 114645 := by decide
  have h30 : lfsrStep^[512] 114645 = 71904 := by decide
  have h31 : lfsrStep^[512] 71904 = 8262 := by decide
  have h32 : lfsrStep^[512] 8262 = 81113 := by decide
  have h33 : lfsrStep^[512] 81113 = 60306 := by decide
  have h34 : lfsrStep^[512] 60306 = 71749 := by decide
  have h35 : lfsrStep^[512] 71749 = 38821 := by decide
  have h36 : lfsrStep^[512] 38821 = 99189 := by decide
  have h37 : lfsrStep^[512] 99189 = 42598 := by decide
  have h38 : lfsrStep^[512] 42598 = 21186 := by decide
  have h39 : lfsrStep^[512] 21186 = 36660 := by decide
  have h40 : lfsrStep^[512] 36660 = 45773 := by decide
  have h41 : lfsrStep^[512] 45773 = 111615 := by decide
  have h42 : lfsrStep^[512] 111615 = 82353 := by decide
  have h43 : lfsrStep^[512] 82353 = 31833 := by decide
  have h44 : lfsrStep^[512] 31833 = 88172 := by decide
  have h45 : lfsrStep^[512] 88172 = 37225 := by decide
  have h46 : lfsrStep^[512] 37225 = 115596 := by decide
  have h47 : lfsrStep^[512] 115596 = 16524 := by decide
  have h48 : lfsrStep^[512] 16524 = 45359 := by decide
  have h49 : lfsrStep^[512] 45359 = 65365 := by decide
  have h50 : lfsrStep^[512] 65365 = 43806 := by decide
  have h51 : lfsrStep^[512] 43806 = 108906 := by decide
  have h52 : lfsrStep^[512] 108906 = 26864 := by decide
  have h53 : lfsrStep^[512] 26864 = 75883 := by decide
  have h54 : lfsrStep^[512] 75883 = 69388 := by decide
  have h55 : lfsrStep^[512] 69388 = 14898 := by decide
  have h56 : lfsrStep^[512] 14898 = 108383 := by decide
  have h57 : lfsrStep^[512] 108383 = 114113 := by decide
  have h58 : lfsrStep^[512] 114113 = 100813 := by decide
  have h59 : lfsrStep^[512] 100813 = 59118 := by decide
  have h60 : lfsrStep^[512] 59118 = 115096 := by decide
  have h61 : lfsrStep^[512] 115096 = 53665 := by decide
  have h62 : lfsrStep^[512] 53665 = 30599 := by decide
  have h63 : lfsrStep^[512] 30599 = 532 := by decide
  have h64 : lfsrStep^[512] 532 = 37165 := by decide
  have h65 : lfsrStep^[512] 37165 = 50856 := by decide
  have h66 : lfsrStep^[512] 50856 = 64833 := by decide
  have h67 : lfsrStep^[512] 64833 = 14899 := by decide
  have h68 : lfsrStep^[512] 14899 = 94146 := by decide
  have h69 : lfsrStep^[512] 94146 = 38321 := by decide
  have h70 : lfsrStep^[512] 38321 = 70232 := by decide
  have h71 : lfsrStep^[512] 70232 = 24782 := by decide
  have h72 : lfsrStep^[512] 24782 = 44931 := by decide
  have h73 : lfsrStep^[512] 44931 = 46343 := by decide
  have h74 : lfsrStep^[512] 46343 = 122127 := by decide
  have h75 : lfsrStep^[512] 122127 = 75342 := by decide
  have h76 : lfsrStep^[512] 75342 = 21481 := by decide
  have h77 : lfsrStep^[512] 21481 = 7319 := by decide
  have h78 : lfsrStep^[512] 7319 = 129007 := by decide
  have h79 : lfsrStep^[512] 129007 = 9326 := by decide
  have h80 : lfsrStep^[512] 9326 = 7811 := by decide
  have h81 : lfsrStep^[512] 7811 = 91842 := by decide
  have h82 : lfsrStep^[512] 91842 = 58054 := by decide
  have h83 : lfsrStep^[512] 58054 = 58306 := by decide
  have h84 : lfsrStep^[512] 58306 = 89329 := by decide
  have h85 : lfsrStep^[512] 89329 = 101636 := by decide
  have h86 : lfsrStep^[512] 101636 = 30323 := by decide
  have h87 : lfsrStep^[512] 30323 = 20137 := by decide
  have h88 : lfsrStep^[512] 20137 = 126410 := by decide
  have h89 : lfsrStep^[512] 126410 = 55792 := by decide
  have h90 : lfsrStep^[512] 55792 = 64430 := by decide
  have h91 : lfsrStep^[512] 64430 = 12485 := by decide
  have h92 : lfsrStep^[512] 12485 = 131006 := by decide
  have h93 : lfsrStep^[512] 131006 = 43079 := by decide
  have h94 : lfsrStep^[512] 43079 = 11346 := by decide
  have h95 : lfsrStep^[512] 11346 = 2129 := by decide
  have h96 : lfsrStep^[512] 2129 = 35881 := by decide
  have h97 : lfsrStep^[512] 35881 = 13009 := by decide
  have h98 : lfsrStep^[512] 13009 = 93843 := by decide
  have h99 : lfsrStep^[512] 93843 = 28399 := by decide
  have h100 : lfsrStep^[512] 28399 = 53523 := by decide
  have h101 : lfsrStep^[512] 53523 = 12898 := by decide
  have h102 : lfsrStep^[512] 12898 = 123883 := by decide
  have h103 : lfsrStep^[512] 123883 = 42848 := by decide
  have h104 : lfsrStep^[512] 42848 = 31947 := by decide
  have h105 : lfsrStep^[512] 31947 = 3617 := by decide
  have h106 : lfsrStep^[512] 3617 = 32400 := by decide
  have h107 : lfsrStep^[512] 32400 = 34661 := by decide
  have h108 : lfsrStep^[512] 34661 = 16100 := by decide
  have h109 : lfsrStep^[512] 16100 = 98606 := by decide
  have h110 : lfsrStep^[512] 98606 = 12066 := by decide
  have h111 : lfsrStep^[512] 12066 = 4790 := by decide
  have h112 : lfsrStep^[512] 4790 = 100735 := by decide
  have h113 : lfsrStep^[512] 100735 = 41739 := by decide
  have h114 : lfsrStep^[512] 41739 = 8295 := by decide
  have h115 : lfsrStep^[512] 8295 = 59372 := by decide
  have h116 : lfsrStep^[512] 59372 = 52708 := by decide
  have h117 : lfsrStep^[512] 52708 = 61812 := by decide
  have h118 : lfsrStep^[512] 61812 = 54670 := by decide
  have h119 : lfsrStep^[512] 54670 = 77327 := by decide
  have h120 : lfsrStep^[512] 77327 = 22036 := by decide
  have h121 : lfsrStep^[512] 22036 = 43333 := by decide
  have h122 : lfsrStep^[512] 43333 = 73774 := by decide
  have h123 : lfsrStep^[512] 73774 = 10372 := by decide
  have h124 : lfsrStep^[512] 10372 = 11808 := by decide
  have h125 : lfsrStep^[512] 11808 = 73418 := by decide
  have h126 : lfsrStep^[512] 73418 = 108970 := by decide
  have h127 : lfsrStep^[512] 108970 = 258 := by decide
  have h128 : lfsrStep^[512] 258 = 68732 := by decide
  have h129 : lfsrStep^[512] 68732 = 8405 := by decide
  have h130 : lfsrStep^[512] 8405 = 41481 := by decide
  have h131 : lfsrStep^[512] 41481 = 76827 := by decide
  have h132 : lfsrStep^[512] 76827 = 51001 := by decide
  have h133 : lfsrStep^[512] 51001 = 28653 := by decide
  have h134 : lfsrStep^[512] 28653 = 122223 := by decide
  have h135 : lfsrStep^[512] 122223 = 4791 := by decide
  have h136 : lfsrStep^[512] 4791 = 82402 := by decide
  have h137 : lfsrStep^[512] 82402 = 101243 := by decide
  have h138 : lfsrStep^[512] 101243 = 48114 := by decide
  have h139 : lfsrStep^[512] 48114 = 25036 := by decide
  have h140 : lfsrStep^[512] 25036 = 107519 := by decide
  have h141 : lfsrStep^[512] 107519 = 38354 := by decide
  have h142 : lfsrStep^[512] 38354 = 98054 := by decide
  have h143 : lfsrStep^[512] 98054 = 2645 := by decide
  have h144 : lfsrStep^[512] 2645 = 38096 := by decide
  have h145 : lfsrStep^[512] 38096 = 29562 := by decide
  have h146 : lfsrStep^[512] 29562 = 10880 := by decide
  have h147 : lfsrStep^[512] 10880 = 14041 := by decide
  have h148 : lfsrStep^[512] 14041 = 89953 := by decide
  have h149 : lfsrStep^[512] 89953 = 60857 := by decide
  have h150 : lfsrStep^[512] 60857 = 22836 := by decide
  have h151 : lfsrStep^[512] 22836 = 33294 := by decide
  have h152 : lfsrStep^[512] 33294 = 65294 := by decide
  have h153 : lfsrStep^[512] 65294 = 71894 := by decide
  have h154 : lfsrStep^[512] 71894 = 67957 := by decide
  have h155 : lfsrStep^[512] 67957 = 17660 := by decide
  have h156 : lfsrStep^[512] 17660 = 96538 := by decide
  have h157 : lfsrStep^[512] 96538 = 43658 := by decide
  have h158 : lfsrStep^[512] 43658 = 53550 := by decide
  have h159 : lfsrStep^[512] 53550 = 1564 := by decide
  have h160 : lfsrStep^[512] 1564 = 41183 := by decide
  have h161 : lfsrStep^[512] 41183 = 17918 := by decide
  have h162 : lfsrStep^[512] 17918 = 30054 := by decide
  have h163 : lfsrStep^[512] 30054 = 35423 := by decide
  have h164 : lfsrStep^[512] 35423 = 29479 := by decide
  have h165 : lfsrStep^[512] 29479 = 76295 := by decide
  have h166 : lfsrStep^[512] 76295 = 26598 := by decide
  have h167 : lfsrStep^[512] 26598 = 10771 := by decide
  have h168 : lfsrStep^[512] 10771 = 108553 := by decide
  have h169 : lfsrStep^[512] 108553 = 39144 := by decide
  have h170 : lfsrStep^[512] 39144 = 78533 := by decide
  have h171 : lfsrStep^[512] 78533 = 41340 := by decide
  have h172 : lfsrStep^[512] 41340 = 56340 := by decide
  have h173 : lfsrStep^[512] 56340 = 19423 := by decide
  have h174 : lfsrStep^[512] 19423 = 3062 := by decide
  have h175 : lfsrStep^[512] 3062 = 3386 := by decide
  have h176 : lfsrStep^[512] 3386 = 19907 := by decide
  have h177 : lfsrStep^[512] 19907 = 43817 := by decide
  have h178 : lfsrStep^[512] 43817 = 18628 := by decide
  have h179 : lfsrStep^[512] 18628 = 14501 := by decide
  have h180 : lfsrStep^[512] 14501 = 8566 := by decide
  have h181 : lfsrStep^[512] 8566 = 15331 := by decide
  have h182 : lfsrStep^[512] 15331 = 70306 := by decide
  have h183 : lfsrStep^[512] 70306 = 18064 := by decide
  have h184 : lfsrStep^[512] 18064 = 4592 := by decide
  have h185 : lfsrStep^[512] 4592 = 47787 := by decide
  have h186 : lfsrStep^[512] 47787 = 56952 := by decide
  have h187 : lfsrStep^[512] 56952 = 74549 := by decide
  have h188 : lfsrStep^[512] 74549 = 7127 := by decide
  have h189 : lfsrStep^[512] 7127 = 620 := by decide
  have h190 : lfsrStep^[512] 620 = 92394 := by decide
  have h191 : lfsrStep^[512] 92394 = 4129 := by decide
  have h192 : lfsrStep^[512] 4129 = 3926 := by decide
  have h193 : lfsrStep^[512] 3926 = 75049 := by decide
  have h194 : lfsrStep^[512] 75049 = 47880 := by decide
  have h195 : lfsrStep^[512] 47880 = 18322 := by decide
  have h196 : lfsrStep^[512] 18322 = 73100 := by decide
  have h197 : lfsrStep^[512] 73100 = 39550 := by decide
  have h198 : lfsrStep^[512] 39550 = 31857 := by decide
  have h199 : lfsrStep^[512] 31857 = 3886 := by decide
  have h200 : lfsrStep^[512] 3886 = 56558 := by decide
  have h201 : lfsrStep^[512] 56558 = 28033 := by decide
  have h202 : lfsrStep^[512] 28033 = 46469 := by decide
  have h203 : lfsrStep^[512] 46469 = 662 := by decide
  have h204 : lfsrStep^[512] 662 = 85684 := by decide
  have h205 : lfsrStep^[512] 85684 = 44626 := by decide
  have h206 : lfsrStep^[512] 44626 = 250 := by decide
  have h207 : lfsrStep^[512] 250 = 9822 := by decide
  have h208 : lfsrStep^[512] 9822 = 48755 := by decide
  have h209 : lfsrStep^[512] 48755 = 4012 := by decide
  have h210 : lfsrStep^[512] 4012 = 66423 := by decide
  have h211 : lfsrStep^[512] 66423 = 1403 := by decide
  have h212 : lfsrStep^[512] 1403 = 18494 := by decide
  have h213 : lfsrStep^[512] 18494 = 7931 := by decide
  have h214 : lfsrStep^[512] 7931 = 40709 := by decide
  have h215 : lfsrStep^[512] 40709 = 13391 := by decide
  have h216 : lfsrStep^[512] 13391 = 4565 := by decide
  have h217 : lfsrStep^[512] 4565 = 17387 := by decide
  have h218 : lfsrStep^[512] 17387 = 22990 := by decide
  have h219 : lfsrStep^[512] 22990 = 42064 := by decide
  have h220 : lfsrStep^[512] 42064 = 16765 := by decide
  have h221 : lfsrStep^[512] 16765 = 71546 := by decide
  have h222 : lfsrStep^[512] 71546 = 2562 := by decide
  have h223 : lfsrStep^[512] 2562 = 16775 := by decide
  have h224 : lfsrStep^[512] 16775 = 78116 := by decide
  have h225 : lfsrStep^[512] 78116 = 46193 := by decide
  have h226 : lfsrStep^[512] 46193 = 20011 := by decide
  have h227 : lfsrStep^[512] 20011 = 12883 := by decide
  have h228 : lfsrStep^[512] 12883 = 45322 := by decide
  have h229 : lfsrStep^[512] 45322 = 1557 := by decide
  have h230 : lfsrStep^[512] 1557 = 11432 := by decide
  have h231 : lfsrStep^[512] 11432 = 11791 := by decide
  have h232 : lfsrStep^[512] 11791 = 12890 := by decide
  have h233 : lfsrStep^[512] 12890 = 15741 := by decide
  have h234 : lfsrStep^[512] 15741 = 28132 := by decide
  have h235 : lfsrStep^[512] 28132 = 27540 := by decide
  have h236 : lfsrStep^[512] 27540 = 39213 := by decide
  have h237 : lfsrStep^[512] 39213 = 11417 := by decide
  have h238 : lfsrStep^[512] 11417 = 97518 := by decide
  have h239 : lfsrStep^[512] 97518 = 37679 := by decide
  have h240 : lfsrStep^[512] 37679 = 27934 := by decide
  have h241 : lfsrStep^[512] 27934 = 19914 := by decide
  have h242 : lfsrStep^[512] 19914 = 10078 := by decide
  have h243 : lfsrStep^[512] 10078 = 9013 := by decide
  have h244 : lfsrStep^[512] 9013 = 32665 := by decide
  have h245 : lfsrStep^[512] 32665 = 38484 := by decide
  have h246 : lfsrStep^[512] 38484 = 9504 := by decide
  have h247 : lfsrStep^[512] 9504 = 21297 := by decide
  have h248 : lfsrStep^[512] 21297 = 47195 := by decide
  have h249 : lfsrStep^[512] 47195 = 6010 := by decide
  have h250 : lfsrStep^[512] 6010 = 28236 := by decide
  have h251 : lfsrStep^[512] 28236 = 54719 := by decide
  have h252 : lfsrStep^[512] 54719 = 31982 := by decide
  have h253 : lfsrStep^[512] 31982 = 63329 := by decide
  have h254 : lfsrStep^[512] 63329 = 63782 := by decide
  have t255 : lfsrStep^[511] 63782 = 1 := by decide
  have t254 : lfsrStep^[1023] 63329 = 1 := by
    rw [show (1023 : Nat) = 511 + 512 from rfl, Function.iterate_add_apply, h254]
    exact t255
  have t253 : lfsrStep^[1535] 31982 = 1 := by
    rw [show (1535 : Nat) = 1023 + 512 from rfl, Function.iterate_add_apply, h253]
    exact t254
  have t252 : lfsrStep^[2047] 54719 = 1 := by
    rw [show (2047 : Nat) = 1535 + 512 from rfl, Function.iterate_add_apply, h252]
    exact t253
  have t251 : lfsrStep^[2559] 28236 = 1 := by
    rw [show (2559 : Nat) = 2047 + 512 from rfl, Function.iterate_add_apply, h251]
    exact t252
  have t250 : lfsrStep^[3071] 6010 = 1 := by
    rw [show (3071 : Nat) = 2559 + 512 from rfl, Function.iterate_add_apply, h250]
    exact t251
  have t249 : lfsrStep^[3583] 47195 = 1 := by
    rw [show (3583 : Nat) = 3071 + 512 from rfl, Function.iterate_add_apply, h249]
    exact t250
  have t248 : lfsrStep^[4095] 21297 = 1 := by
    rw [show (4095 : Nat) = 3583 + 512 from rfl, Function.iterate_add_apply, h248]
    exact t249
  have t247 : lfsrStep^[4607] 9504 = 1 := by
    rw [show (4607 : Nat) = 4095 + 512 from rfl, Function.iterate_add_apply, h247]
    exact t248
  have t246 : lfsrStep^[5119] 38484 = 1 := by
    rw [show (5119 : Nat) = 4607 + 512 from rfl, Function.iterate_add_apply, h246]
    exact t247
  have t245 : lfsrStep^[5631] 32665 = 1 := by
    rw [show (5631 : Nat) = 5119 + 512 from rfl, Function.iterate_add_apply, h245]
    exact t246
  have t244 : lfsrStep^[6143] 9013 = 1 := by
    rw [show (6143 : Nat) = 5631 + 512 from rfl, Function.iterate_add_apply, h244]
    exact t245
  have t243 : lfsrStep^[6655] 10078 = 1 := by
    rw [show (6655 : Nat) = 6143 + 512 from rfl, Function.iterate_add_apply, h243]
    exact t244
  have t242 : lfsrStep^[7167] 19914 = 1 := by
    rw [show (7167 : Nat) = 6655 + 512 from rfl, Function.iterate_add_apply, h242]
    exact t243
  have t241 : lfsrStep^[7679] 27934 = 1 := by
    rw [show (7679 : Nat) = 7167 + 512 from rfl, Function.iterate_add_apply, h241]
    exact t242
  have t240 : lfsrStep^[8191] 37679 = 1 := by
    rw [show (8191 : Nat) = 7679 + 512 from rfl, Function.iterate_add_apply, h240]
    exact t241
  have t239 : lfsrStep^[8703] 97518 = 1 := by
    rw [show (8703 : Nat) = 8191 + 512 from rfl, Function.iterate_add_apply, h239]
    exact t240
  have t238 : lfsrStep^[9215] 11417 = 1 := by
    rw [show (9215 : Nat) = 8703 + 512 from rfl, Function.iterate_add_apply, h238]
    exact t239
  have t237 : lfsrStep^[9727] 39213 = 1 := by
    rw [show (9727 : Nat) = 9215 + 512 from rfl, Function.iterate_add_apply, h237]
    exact t238
  have t236 : lfsrStep^[10239] 27540 = 1 := by
    rw [show (10239 : Nat) = 9727 + 512 from rfl, Function.iterate_add_apply, h236]
    exact t237
  have t235 : lfsrStep^[10751] 28132 = 1 := by
    rw [show (10751 : Nat) = 10239 + 512 from rfl, Function.iterate_add_apply, h235]
    exact t236
  have t234 : lfsrStep^[11263] 15741 = 1 := by
    rw [show (11263 : Nat) = 10751 + 512 from rfl, Function.iterate_add_apply, h234]
    exact t235
  have t233 : lfsrStep^[11775] 12890 = 1 := by
    rw [show (11775 : Nat) = 11263 + 512 from rfl, Function.iterate_add_apply, h233]
    exact t234
  have t232 : lfsrStep^[12287] 11791 = 1 := by
    rw [show (12287 : Nat) = 11775 + 512 from rfl, Function.iterate_add_apply, h232]
    exact t233
  have t231 : lfsrStep^[12799] 11432 = 1 := by
    rw [show (12799 : Nat) = 12287 + 512 from rfl, Function.iterate_add_apply, h231]
    exact t232
  have t230 : lfsrStep^[13311] 1557 = 1 := by
    rw [show (13311 : Nat) = 12799 + 512 from rfl, Function.iterate_add_apply, h230]
    exact t231
  have t229 : lfsrStep^[13823] 45322 = 1 := by
    rw [show (13823 : Nat) = 13311 + 512 from rfl, Function.iterate_add_apply, h229]
    exact t230
  have t228 : lfsrStep^[14335] 12883 = 1 := by
    rw [show (14335 : Nat) = 13823 + 512 from rfl, Function.iterate_add_apply, h228]
    exact t229
  have t227 : lfsrStep^[14847] 20011 = 1 := by
    rw [show (14847 : Nat) = 14335 + 512 from rfl, Function.iterate_add_apply, h227]
    exact t228
  have t226 : lfsrStep^[15359] 46193 = 1 := by
    rw [show (15359 : Nat) = 14847 + 512 from rfl, Function.iterate_add_apply, h226]
    exact t227
  have t225 : lfsrStep^[15871] 78116 = 1 := by
    rw [show (15871 : Nat) = 15359 + 512 from rfl, Function.iterate_add_apply, h225]
    exact t226
  have t224 : lfsrStep^[16383] 16775 = 1 := by
    rw [show (16383 : Nat) = 15871 + 512 from rfl, Function.iterate_add_apply, h224]
    exact t225
  have t223 : lfsrStep^[16895] 2562 = 1 := by
    rw [show (16895 : Nat) = 16383 + 512 from rfl, Function.iterate_add_apply, h223]
    exact t224
  have t222 : lfsrStep^[17407] 71546 = 1 := by
    rw [show (17407 : Nat) = 16895 + 512 from rfl, Function.iterate_add_apply, h222]
    exact t223
  have t221 : lfsrStep^[17919] 16765 = 1 := by
    rw [show (17919 : Nat) = 17407 + 512 from rfl, Function.iterate_add_apply, h221]
    exact t222
  have t220 : lfsrStep^[18431] 42064 = 1 := by
    rw [show (18431 : Nat) = 17919 + 512 from rfl, Function.iterate_add_apply, h220]
    exact t221
  have t219 : lfsrStep^[18943] 22990 = 1 := by
    rw [show (18943 : Nat) = 18431 + 512 from rfl, Function.iterate_add_apply, h219]
    exact t220
  have t218 : lfsrStep^[19455] 17387 = 1 := by
    rw [show (19455 : Nat) = 18943 + 512 from rfl, Function.iterate_add_apply, h218]
    exact t219
  have t217 : lfsrStep^[19967] 4565 = 1 := by
    rw [show (19967 : Nat) = 19455 + 512 from rfl, Function.iterate_add_apply, h217]
    exact t218
  have t216 : lfsrStep^[20479] 13391 = 1 := by
    rw [show (20479 : Nat) = 19967 + 512 from rfl, Function.iterate_add_apply, h216]
    exact t217
  have t215 : lfsrStep^[20991] 40709 = 1 := by
    rw [show (20991 : Nat) = 20479 + 512 from rfl, Function.iterate_add_apply, h215]
    exact t216
  have t214 : lfsrStep^[21503] 7931 = 1 := by
    rw [show (21503 : Nat) = 20991 + 512 from rfl, Function.iterate_add_apply, h214]
    exact t215
  have t213 : lfsrStep^[22015] 18494 = 1 := by
    rw [show (22015 : Nat) = 21503 + 512 from rfl, Function.iterate_add_apply, h213]
    exact t214
  have t212 : lfsrStep^[22527] 1403 = 1 := by
    rw [show (22527 : Nat) = 22015 + 512 from rfl, Function.iterate_add_apply, h212]
    exact t213
  have t211 : lfsrStep^[23039] 66423 = 1 := by
    rw [show (23039 : Nat) = 22527 + 512 from rfl, Function.iterate_add_apply, h211]
    exact t212
  have t210 : lfsrStep^[23551] 4012 = 1 := by
    rw [show (23551 : Nat) = 23039 + 512 from rfl, Function.iterate_add_apply, h210]
    exact t211
  have t209 : lfsrStep^[24063] 48755 = 1 := by
    rw [show (24063 : Nat) = 23551 + 512 from rfl, Function.iterate_add_apply, h209]
    exact t210
  have t208 : lfsrStep^[24575] 9822 = 1 := by
    rw [show (24575 : Nat) = 24063 + 512 from rfl, Function.iterate_add_apply, h208]
    exact t209
  have t207 : lfsrStep^[25087] 250 = 1 := by
    rw [show (25087 : Nat) = 24575 + 512 from rfl, Function.iterate_add_apply, h207]
    exact t208
  have t206 : lfsrStep^[25599] 44626 = 1 := by
    rw [show (25599 : Nat) = 25087 + 512 from rfl, Function.iterate_add_apply, h206]
    exact t207
  have t205 : lfsrStep^[26111] 85684 = 1 := by
    rw [show (26111 : Nat) = 25599 + 512 from rfl, Function.iterate_add_apply, h205]
    exact t206
  have t204 : lfsrStep^[26623] 662 = 1 := by
    rw [show (26623 : Nat) = 26111 + 512 from rfl, Function.iterate_add_apply, h204]
    exact t205
  have t203 : lfsrStep^[27135] 46469 = 1 := by
    rw [show (27135 : Nat) = 26623 + 512 from rfl, Function.iterate_add_apply, h203]
    exact t204
  have t202 : lfsrStep^[27647] 28033 = 1 := by
    rw [show (27647 : Nat) = 27135 + 512 from rfl, Function.iterate_add_apply, h202]
    exact t203
  have t201 : lfsrStep^[28159] 56558 = 1 := by
    rw [show (28159 : Nat) = 27647 + 512 from rfl, Function.iterate_add_apply, h201]
    exact t202
  have t200 : lfsrStep^[28671] 3886 = 1 := by
    rw [show (28671 : Nat) = 28159 + 512 from rfl, Function.iterate_add_apply, h200]
    exact t201
  have t199 : lfsrStep^[29183] 31857 = 1 := by
    rw [show (29183 : Nat) = 28671 + 512 from rfl, Function.iterate_add_apply, h199]
    exact t200
  have t198 : lfsrStep^[29695] 39550 = 1 := by
    rw [show (29695 : Nat) = 29183 + 512 from rfl, Function.iterate_add_apply, h198]
    exact t199
  have t197 : lfsrStep^[30207] 73100 = 1 := by
    rw [show (30207 : Nat) = 29695 + 512 from rfl, Function.iterate_add_apply, h197]
    exact t198
  have t196 : lfsrStep^[30719] 18322 = 1 := by
    rw [show (30719 : Nat) = 30207 + 512 from rfl, Function.iterate_add_apply, h196]
    exact t197
  have t195 : lfsrStep^[31231] 47880 = 1 := by
    rw [show (31231 : Nat) = 30719 + 512 from rfl, Function.iterate_add_apply, h195]
    exact t196
  have t194 : lfsrStep^[31743] 75049 = 1 := by
    rw [show (31743 : Nat) = 31231 + 512 from rfl, Function.iterate_add_apply, h194]
    exact t195
  have t193 : lfsrStep^[32255] 3926 = 1 := by
    rw [show (32255 : Nat) = 31743 + 512 from rfl, Function.iterate_add_apply, h193]
    exact t194
  have t192 : lfsrStep^[32767] 4129 = 1 := by
    rw [show (32767 : Nat) = 32255 + 512 from rfl, Function.iterate_add_apply, h192]
    exact t193
  have t191 : lfsrStep^[33279] 92394 = 1 := by
    rw [show (33279 : Nat) = 32767 + 512 from rfl, Function.iterate_add_apply, h191]
    exact t192
  have t190 : lfsrStep^[33791] 620 = 1 := by
    rw [show (33791 : Nat) = 33279 + 512 from rfl, Function.iterate_add_apply, h190]
    exact t191
  have t189 : lfsrStep^[34303] 7127 = 1 := by
    rw [show (34303 : Nat) = 33791 + 512 from rfl, Function.iterate_add_apply, h189]
    exact t190
  have t188 : lfsrStep^[34815] 74549 = 1 := by
    rw [show (34815 : Nat) = 34303 + 512 from rfl, Function.iterate_add_apply, h188]
    exact t189
  have t187 : lfsrStep^[35327] 56952 = 1 := by
    rw [show (35327 : Nat) = 34815 + 512 from rfl, Function.iterate_add_apply, h187]
    exact t188
  have t186 : lfsrStep^[35839] 47787 = 1 := by
    rw [show (35839 : Nat) = 35327 + 512 from rfl, Function.iterate_add_apply, h186]
    exact t187
  have t185 : lfsrStep^[36351] 4592 = 1 := by
    rw [show (36351 : Nat) = 35839 + 512 from rfl, Function.iterate_add_apply, h185]
    exact t186
  have t184 : lfsrStep^[36863] 18064 = 1 := by
    rw [show (36863 : Nat) = 36351 + 512 from rfl, Function.iterate_add_apply, h184]
    exact t185
  have t183 : lfsrStep^[37375] 70306 = 1 := by
    rw [show (37375 : Nat) = 36863 + 512 from rfl, Function.iterate_add_apply, h183]
    exact t184
  have t182 : lfsrStep^[37887] 15331 = 1 := by
    rw [show (37887 : Nat) = 37375 + 512 from rfl, Function.iterate_add_apply, h182]
    exact t183
  have t181 : lfsrStep^[38399] 8566 = 1 := by
    rw [show (38399 : Nat) = 37887 + 512 from rfl, Function.iterate_add_apply, h181]
    exact t182
  have t180 : lfsrStep^[38911] 14501 = 1 := by
    rw [show (38911 : Nat) = 38399 + 512 from rfl, Function.iterate_add_apply, h180]
    exact t181
  have t179 : lfsrStep^[39423] 18628 = 1 := by
    rw [show (39423 : Nat) = 38911 + 512 from rfl, Function.iterate_add_apply, h179]
    exact t180
  have t178 : lfsrStep^[39935] 43817 = 1 := by
    rw [show (39935 : Nat) = 39423 + 512 from rfl, Function.iterate_add_apply, h178]
    exact t179
  have t177 : lfsrStep^[40447] 19907 = 1 := by
    rw [show (40447 : Nat) = 39935 + 512 from rfl, Function.iterate_add_apply, h177]
    exact t178
  have t176 : lfsrStep^[40959] 3386 = 1 := by
    rw [show (40959 : Nat) = 40447 + 512 from rfl, Function.iterate_add_apply, h176]
    exact t177
  have t175 : lfsrStep^[41471] 3062 = 1 := by
    rw [show (41471 : Nat) = 40959 + 512 from rfl, Function.iterate_add_apply, h175]
    exact t176
  have t174 : lfsrStep^[41983] 19423 = 1 := by
    rw [show (41983 : Nat) = 41471 + 512 from rfl, Function.iterate_add_apply, h174]
    exact t175
  have t173 : lfsrStep^[42495] 56340 = 1 := by
    rw [show (42495 : Nat) = 41983 + 512 from rfl, Function.iterate_add_apply, h173]
    exact t174
  have t172 : lfsrStep^[43007] 41340 = 1 := by
    rw [show (43007 : Nat) = 42495 + 512 from rfl, Function.iterate_add_apply, h172]
    exact t173
  have t171 : lfsrStep^[43519] 78533 = 1 := by
    rw [show (43519 : Nat) = 43007 + 512 from rfl, Function.iterate_add_apply, h171]
    exact t172
  have t170 : lfsrStep^[44031] 39144 = 1 := by
    rw [show (44031 : Nat) = 43519 + 512 from rfl, Function.iterate_add_apply, h170]
    exact t171
  have t169 : lfsrStep^[44543] 108553 = 1 := by
    rw [show (44543 : Nat) = 44031 + 512 from rfl, Function.iterate_add_apply, h169]
    exact t170
  have t168 : lfsrStep^[45055] 10771 = 1 := by
    rw [show (45055 : Nat) = 44543 + 512 from rfl, Function.iterate_add_apply, h168]
    exact t169
  have t167 : lfsrStep^[45567] 26598 = 1 := by
    rw [show (45567 : Nat) = 45055 + 512 from rfl, Function.iterate_add_apply, h167]
    exact t168
  have t166 : lfsrStep^[46079] 76295 = 1 := by
    rw [show (46079 : Nat) = 45567 + 512 from rfl, Function.iterate_add_apply, h166]
    exact t167
  have t165 : lfsrStep^[46591] 29479 = 1 := by
    rw [show (46591 : Nat) = 46079 + 512 from rfl, Function.iterate_add_apply, h165]
    exact t166
  have t164 : lfsrStep^[47103] 35423 = 1 := by
    rw [show (47103 : Nat) = 46591 + 512 from rfl, Function.iterate_add_apply, h164]
    exact t165
  have t163 : lfsrStep^[47615] 30054 = 1 := by
    rw [show (47615 : Nat) = 47103 + 512 from rfl, Function.iterate_add_apply, h163]
    exact t164
  have t162 : lfsrStep^[48127] 17918 = 1 := by
    rw [show (48127 : Nat) = 47615 + 512 from rfl, Function.iterate_add_apply, h162]
    exact t163
  have t161 : lfsrStep^[48639] 41183 = 1 := by
    rw [show (48639 : Nat) = 48127 + 512 from rfl, Function.iterate_add_apply, h161]
    exact t162
  have t160 : lfsrStep^[49151] 1564 = 1 := by
    rw [show (49151 : Nat) = 48639 + 512 from rfl, Function.iterate_add_apply, h160]
    exact t161
  have t159 : lfsrStep^[49663] 53550 = 1 := by
    rw [show (49663 : Nat) = 49151 + 512 from rfl, Function.iterate_add_apply, h159]
    exact t160
  have t158 : lfsrStep^[50175] 43658 = 1 := by
    rw [show (50175 : Nat) = 49663 + 512 from rfl, Function.iterate_add_apply, h158]
    exact t159
  have t157 : lfsrStep^[50687] 96538 = 1 := by
    rw [show (50687 : Nat) = 50175 + 512 from rfl, Function.iterate_add_apply, h157]
    exact t158
  have t156 : lfsrStep^[51199] 17660 = 1 := by
    rw [show (51199 : Nat) = 50687 + 512 from rfl, Function.iterate_add_apply, h156]
    exact t157
  have t155 : lfsrStep^[51711] 67957 = 1 := by
    rw [show (51711 : Nat) = 51199 + 512 from rfl, Function.iterate_add_apply, h155]
    exact t156
  have t154 : lfsrStep^[52223] 71894 = 1 := by
    rw [show (52223 : Nat) = 51711 + 512 from rfl, Function.iterate_add_apply, h154]
    exact t155
  have t153 : lfsrStep^[52735] 65294 = 1 := by
    rw [show (52735 : Nat) = 52223 + 512 from rfl, Function.iterate_add_apply, h153]
    exact t154
  have t152 : lfsrStep^[53247] 33294 = 1 := by
    rw [show (53247 : Nat) = 52735 + 512 from rfl, Function.iterate_add_apply, h152]
    exact t153
  have t151 : lfsrStep^[53759] 22836 = 1 := by
    rw [show (53759 : Nat) = 53247 + 512 from rfl, Function.iterate_add_apply, h151]
    exact t152
  have t150 : lfsrStep^[54271] 60857 = 1 := by
    rw [show (54271 : Nat) = 53759 + 512 from rfl, Function.iterate_add_apply, h150]
    exact t151
  have t149 : lfsrStep^[54783] 89953 = 1 := by
    rw [show (54783 : Nat) = 54271 + 512 from rfl, Function.iterate_add_apply, h149]
    exact t150
  have t148 : lfsrStep^[55295] 14041 = 1 := by
    rw [show (55295 : Nat) = 54783 + 512 from rfl, Function.iterate_add_apply, h148]
    exact t149
  have t147 : lfsrStep^[55807] 10880 = 1 := by
    rw [show (55807 : Nat) = 55295 + 512 from rfl, Function.iterate_add_apply, h147]
    exact t148
  have t146 : lfsrStep^[56319] 29562 = 1 := by
    rw [show (56319 : Nat) = 55807 + 512 from rfl, Function.iterate_add_apply, h146]
    exact t147
  have t145 : lfsrStep^[56831] 38096 = 1 := by
    rw [show (56831 : Nat) = 56319 + 512 from rfl, Function.iterate_add_apply, h145]
    exact t146
  have t144 : lfsrStep^[57343] 2645 = 1 := by
    rw [show (57343 : Nat) = 56831 + 512 from rfl, Function.iterate_add_apply, h144]
    exact t145
  have t143 : lfsrStep^[57855] 98054 = 1 := by
    rw [show (57855 : Nat) = 57343 + 512 from rfl, Function.iterate_add_apply, h143]
    exact t144
  have t142 : lfsrStep^[58367] 38354 = 1 := by
    rw [show (58367 : Nat) = 57855 + 512 from rfl, Function.iterate_add_apply, h142]
    exact t143
  have t141 : lfsrStep^[58879] 107519 = 1 := by
    rw [show (58879 : Nat) = 58367 + 512 from rfl, Function.iterate_add_apply, h141]
    exact t142
  have t140 : lfsrStep^[59391] 25036 = 1 := by
    rw [show (59391 : Nat) = 58879 + 512 from rfl, Function.iterate_add_apply, h140]
    exact t141
  have t139 : lfsrStep^[59903] 48114 = 1 := by
    rw [show (59903 : Nat) = 59391 + 512 from rfl, Function.iterate_add_apply, h139]
    exact t140
  have t138 : lfsrStep^[60415] 101243 = 1 := by
    rw [show (60415 : Nat) = 59903 + 512 from rfl, Function.iterate_add_apply, h138]
    exact t139
  have t137 : lfsrStep^[60927] 82402 = 1 := by
    rw [show (60927 : Nat) = 60415 + 512 from rfl, Function.iterate_add_apply, h137]
    exact t138
  have t136 : lfsrStep^[61439] 4791 = 1 := by
    rw [show (61439 : Nat) = 60927 + 512 from rfl, Function.iterate_add_apply, h136]
    exact t137
  have t135 : lfsrStep^[61951] 122223 = 1 := by
    rw [show (61951 : Nat) = 61439 + 512 from rfl, Function.iterate_add_apply, h135]
    exact t136
  have t134 : lfsrStep^[62463] 28653 = 1 := by
    rw [show (62463 : Nat) = 61951 + 512 from rfl, Function.iterate_add_apply, h134]
    exact t135
  have t133 : lfsrStep^[62975] 51001 = 1 := by
    rw [show (62975 : Nat) = 62463 + 512 from rfl, Function.iterate_add_apply, h133]
    exact t134
  have t132 : lfsrStep^[63487] 76827 = 1 := by
    rw [show (63487 : Nat) = 62975 + 512 from rfl, Function.iterate_add_apply, h132]
    exact t133
  have t131 : lfsrStep^[63999] 41481 = 1 := by
    rw [show (63999 : Nat) = 63487 + 512 from rfl, Function.iterate_add_apply, h131]
    exact t132
  have t130 : lfsrStep^[64511] 8405 = 1 := by
    rw [show (64511 : Nat) = 63999 + 512 from rfl, Function.iterate_add_apply, h130]
    exact t131
  have t129 : lfsrStep^[65023] 68732 = 1 := by
    rw [show (65023 : Nat) = 64511 + 512 from rfl, Function.iterate_add_apply, h129]
    exact t130
  have t128 : lfsrStep^[65535] 258 = 1 := by
    rw [show (65535 : Nat) = 65023 + 512 from rfl, Function.iterate_add_apply, h128]
    exact t129
  have t127 : lfsrStep^[66047] 108970 = 1 := by
    rw [show (66047 : Nat) = 65535 + 512 from rfl, Function.iterate_add_apply, h127]
    exact t128
  have t126 : lfsrStep^[66559] 73418 = 1 := by
    rw [show (66559 : Nat) = 66047 + 512 from rfl, Function.iterate_add_apply, h126]
    exact t127
  have t125 : lfsrStep^[67071] 11808 = 1 := by
    rw [show (67071 : Nat) = 66559 + 512 from rfl, Function.iterate_add_apply, h125]
    exact t126
  have t124 : lfsrStep^[67583] 10372 = 1 := by
    rw [show (67583 : Nat) = 67071 + 512 from rfl, Function.iterate_add_apply, h124]
    exact t125
  have t123 : lfsrStep^[68095] 73774 = 1 := by
    rw [show (68095 : Nat) = 67583 + 512 from rfl, Function.iterate_add_apply, h123]
    exact t124
  have t122 : lfsrStep^[68607] 43333 = 1 := by
    rw [show (68607 : Nat) = 68095 + 512 from rfl, Function.iterate_add_apply, h122]
    exact t123
  have t121 : lfsrStep^[69119] 22036 = 1 := by
    rw [show (69119 : Nat) = 68607 + 512 from rfl, Function.iterate_add_apply, h121]
    exact t122
  have t120 : lfsrStep^[69631] 77327 = 1 := by
    rw [show (69631 : Nat) = 69119 + 512 from rfl, Function.iterate_add_apply, h120]
    exact t121
  have t119 : lfsrStep^[70143] 54670 = 1 := by
    rw [show (70143 : Nat) = 69631 + 512 from rfl, Function.iterate_add_apply, h119]
    exact t120
  have t118 : lfsrStep^[70655] 61812 = 1 := by
    rw [show (70655 : Nat) = 70143 + 512 from rfl, Function.iterate_add_apply, h118]
    exact t119
  have t117 : lfsrStep^[71167] 52708 = 1 := by
    rw [show (71167 : Nat) = 70655 + 512 from rfl, Function.iterate_add_apply, h117]
    exact t118
  have t116 : lfsrStep^[71679] 59372 = 1 := by
    rw [show (71679 : Nat) = 71167 + 512 from rfl, Function.iterate_add_apply, h116]
    exact t117
  have t115 : lfsrStep^[72191] 8295 = 1 := by
    rw [show (72191 : Nat) = 71679 + 512 from rfl, Function.iterate_add_apply, h115]
    exact t116
  have t114 : lfsrStep^[72703] 41739 = 1 := by
    rw [show (72703 : Nat) = 72191 + 512 from rfl, Function.iterate_add_apply, h114]
    exact t115
  have t113 : lfsrStep^[73215] 100735 = 1 := by
    rw [show (73215 : Nat) = 72703 + 512 from rfl, Function.iterate_add_apply, h113]
    exact t114
  have t112 : lfsrStep^[73727] 4790 = 1 := by
    rw [show (73727 : Nat) = 73215 + 512 from rfl, Function.iterate_add_apply, h112]
    exact t113
  have t111 : lfsrStep^[74239] 12066 = 1 := by
    rw [show (74239 : Nat) = 73727 + 512 from rfl, Function.iterate_add_apply, h111]
    exact t112
  have t110 : lfsrStep^[74751] 98606 = 1 := by
    rw [show (74751 : Nat) = 74239 + 512 from rfl, Function.iterate_add_apply, h110]
    exact t111
  have t109 : lfsrStep^[75263] 16100 = 1 := by
    rw [show (75263 : Nat) = 74751 + 512 from rfl, Function.iterate_add_apply, h109]
    exact t110
  have t108 : lfsrStep^[75775] 34661 = 1 := by
    rw [show (75775 : Nat) = 75263 + 512 from rfl, Function.iterate_add_apply, h108]
    exact t109
  have t107 : lfsrStep^[76287] 32400 = 1 := by
    rw [show (76287 : Nat) = 75775 + 512 from rfl, Function.iterate_add_apply, h107]
    exact t108
  have t106 : lfsrStep^[76799] 3617 = 1 := by
    rw [show (76799 : Nat) = 76287 + 512 from rfl, Function.iterate_add_apply, h106]
    exact t107
  have t105 : lfsrStep^[77311] 31947 = 1 := by
    rw [show (77311 : Nat) = 76799 + 512 from rfl, Function.iterate_add_apply, h105]
    exact t106
  have t104 : lfsrStep^[77823] 42848 = 1 := by
    rw [show (77823 : Nat) = 77311 + 512 from rfl, Function.iterate_add_apply, h104]
    exact t105
  have t103 : lfsrStep^[78335] 123883 = 1 := by
    rw [show (78335 : Nat) = 77823 + 512 from rfl, Function.iterate_add_apply, h103]
    exact t104
  have t102 : lfsrStep^[78847] 12898 = 1 := by
    rw [show (78847 : Nat) = 78335 + 512 from rfl, Function.iterate_add_apply, h102]
    exact t103
  have t101 : lfsrStep^[79359] 53523 = 1 := by
    rw [show (79359 : Nat) = 78847 + 512 from rfl, Function.iterate_add_apply, h101]
    exact t102
  have t100 : lfsrStep^[79871] 28399 = 1 := by
    rw [show (79871 : Nat) = 79359 + 512 from rfl, Function.iterate_add_apply, h100]
    exact t101
  have t99 : lfsrStep^[80383] 93843 = 1 := by
    rw [show (80383 : Nat) = 79871 + 512 from rfl, Function.iterate_add_apply, h99]
    exact t100
  have t98 : lfsrStep^[80895] 13009 = 1 := by
    rw [show (80895 : Nat) = 80383 + 512 from rfl, Function.iterate_add_apply, h98]
    exact t99
  have t97 : lfsrStep^[81407] 35881 = 1 := by
    rw [show (81407 : Nat) = 80895 + 512 from rfl, Function.iterate_add_apply, h97]
    exact t98
  have t96 : lfsrStep^[81919] 2129 = 1 := by
    rw [show (81919 : Nat) = 81407 + 512 from rfl, Function.iterate_add_apply, h96]
    exact t97
  have t95 : lfsrStep^[82431] 11346 = 1 := by
    rw [show (82431 : Nat) = 81919 + 512 from rfl, Function.iterate_add_apply, h95]
    exact t96
  have t94 : lfsrStep^[82943] 43079 = 1 := by
    rw [show (82943 : Nat) = 82431 + 512 from rfl, Function.iterate_add_apply, h94]
    exact t95
  have t93 : lfsrStep^[83455] 131006 = 1 := by
    rw [show (83455 : Nat) = 82943 + 512 from rfl, Function.iterate_add_apply, h93]
    exact t94
  have t92 : lfsrStep^[83967] 12485 = 1 := by
    rw [show (83967 : Nat) = 83455 + 512 from rfl, Function.iterate_add_apply, h92]
    exact t93
  have t91 : lfsrStep^[84479] 64430 = 1 := by
    rw [show (84479 : Nat) = 83967 + 512 from rfl, Function.iterate_add_apply, h91]
    exact t92
  have t90 : lfsrStep^[84991] 55792 = 1 := by
    rw [show (84991 : Nat) = 84479 + 512 from rfl, Function.iterate_add_apply, h90]
    exact t91
  have t89 : lfsrStep^[85503] 126410 = 1 := by
    rw [show (85503 : Nat) = 84991 + 512 from rfl, Function.iterate_add_apply, h89]
    exact t90
  have t88 : lfsrStep^[86015] 20137 = 1 := by
    rw [show (86015 : Nat) = 85503 + 512 from rfl, Function.iterate_add_apply, h88]
    exact t89
  have t87 : lfsrStep^[86527] 30323 = 1 := by
    rw [show (86527 : Nat) = 86015 + 512 from rfl, Function.iterate_add_apply, h87]
    exact t88
  have t86 : lfsrStep^[87039] 101636 = 1 := by
    rw [show (87039 : Nat) = 86527 + 512 from rfl, Function.iterate_add_apply, h86]
    exact t87
  have t85 : lfsrStep^[87551] 89329 = 1 := by
    rw [show (87551 : Nat) = 87039 + 512 from rfl, Function.iterate_add_apply, h85]
    exact t86
  have t84 : lfsrStep^[88063] 58306 = 1 := by
    rw [show (88063 : Nat) = 87551 + 512 from rfl, Function.iterate_add_apply, h84]
    exact t85
  have t83 : lfsrStep^[88575] 58054 = 1 := by
    rw [show (88575 : Nat) = 88063 + 512 from rfl, Function.iterate_add_apply, h83]
    exact t84
  have t82 : lfsrStep^[89087] 91842 = 1 := by
    rw [show (89087 : Nat) = 88575 + 512 from rfl, Function.iterate_add_apply, h82]
    exact t83
  have t81 : lfsrStep^[89599] 7811 = 1 := by
    rw [show (89599 : Nat) = 89087 + 512 from rfl, Function.iterate_add_apply, h81]
    exact t82
  have t80 : lfsrStep^[90111] 9326 = 1 := by
    rw [show (90111 : Nat) = 89599 + 512 from rfl, Function.iterate_add_apply, h80]
    exact t81
  have t79 : lfsrStep^[90623] 129007 = 1 := by
    rw [show (90623 : Nat) = 90111 + 512 from rfl, Function.iterate_add_apply, h79]
    exact t80
  have t78 : lfsrStep^[91135] 7319 = 1 := by
    rw [show (91135 : Nat) = 90623 + 512 from rfl, Function.iterate_add_apply, h78]
    exact t79
  have t77 : lfsrStep^[91647] 21481 = 1 := by
    rw [show (91647 : Nat) = 91135 + 512 from rfl, Function.iterate_add_apply, h77]
    exact t78
  have t76 : lfsrStep^[92159] 75342 = 1 := by
    rw [show (92159 : Nat) = 91647 + 512 from rfl, Function.iterate_add_apply, h76]
    exact t77
  have t75 : lfsrStep^[92671] 122127 = 1 := by
    rw [show (92671 : Nat) = 92159 + 512 from rfl, Function.iterate_add_apply, h75]
    exact t76
  have t74 : lfsrStep^[93183] 46343 = 1 := by
    rw [show (93183 : Nat) = 92671 + 512 from rfl, Function.iterate_add_apply, h74]
    exact t75
  have t73 : lfsrStep^[93695] 44931 = 1 := by
    rw [show (93695 : Nat) = 93183 + 512 from rfl, Function.iterate_add_apply, h73]
    exact t74
  have t72 : lfsrStep^[94207] 24782 = 1 := by
    rw [show (94207 : Nat) = 93695 + 512 from rfl, Function.iterate_add_apply, h72]
    exact t73
  have t71 : lfsrStep^[94719] 70232 = 1 := by
    rw [show (94719 : Nat) = 94207 + 512 from rfl, Function.iterate_add_apply, h71]
    exact t72
  have t70 : lfsrStep^[95231] 38321 = 1 := by
    rw [show (95231 : Nat) = 94719 + 512 from rfl, Function.iterate_add_apply, h70]
    exact t71
  have t69 : lfsrStep^[95743] 94146 = 1 := by
    rw [show (95743 : Nat) = 95231 + 512 from rfl, Function.iterate_add_apply, h69]
    exact t70
  have t68 : lfsrStep^[96255] 14899 = 1 := by
    rw [show (96255 : Nat) = 95743 + 512 from rfl, Function.iterate_add_apply, h68]
    exact t69
  have t67 : lfsrStep^[96767] 64833 = 1 := by
    rw [show (96767 : Nat) = 96255 + 512 from rfl, Function.iterate_add_apply, h67]
    exact t68
  have t66 : lfsrStep^[97279] 50856 = 1 := by
    rw [show (97279 : Nat) = 96767 + 512 from rfl, Function.iterate_add_apply, h66]
    exact t67
  have t65 : lfsrStep^[97791] 37165 = 1 := by
    rw [show (97791 : Nat) = 97279 + 512 from rfl, Function.iterate_add_apply, h65]
    exact t66
  have t64 : lfsrStep^[98303] 532 = 1 := by
    rw [show (98303 : Nat) = 97791 + 512 from rfl, Function.iterate_add_apply, h64]
    exact t65
  have t63 : lfsrStep^[98815] 30599 = 1 := by
    rw [show (98815 : Nat) = 98303 + 512 from rfl, Function.iterate_add_apply, h63]
    exact t64
  have t62 : lfsrStep^[99327] 53665 = 1 := by
    rw [show (99327 : Nat) = 98815 + 512 from rfl, Function.iterate_add_apply, h62]
    exact t63
  have t61 : lfsrStep^[99839] 115096 = 1 := by
    rw [show (99839 : Nat) = 99327 + 512 from rfl, Function.iterate_add_apply, h61]
    exact t62
  have t60 : lfsrStep^[100351] 59118 = 1 := by
    rw [show (100351 : Nat) = 99839 + 512 from rfl, Function.iterate_add_apply, h60]
    exact t61
  have t59 : lfsrStep^[100863] 100813 = 1 := by
    rw [show (100863 : Nat) = 100351 + 512 from rfl, Function.iterate_add_apply, h59]
    exact t60
  have t58 : lfsrStep^[101375] 114113 = 1 := by
    rw [show (101375 : Nat) = 100863 + 512 from rfl, Function.iterate_add_apply, h58]
    exact t59
  have t57 : lfsrStep^[101887] 108383 = 1 := by
    rw [show (101887 : Nat) = 101375 + 512 from rfl, Function.iterate_add_apply, h57]
    exact t58
  have t56 : lfsrStep^[102399] 14898 = 1 := by
    rw [show (102399 : Nat) = 101887 + 512 from rfl, Function.iterate_add_apply, h56]
    exact t57
  have t55 : lfsrStep^[102911] 69388 = 1 := by
    rw [show (102911 : Nat) = 102399 + 512 from rfl, Function.iterate_add_apply, h55]
    exact t56
  have t54 : lfsrStep^[103423] 75883 = 1 := by
    rw [show (103423 : Nat) = 102911 + 512 from rfl, Function.iterate_add_apply, h54]
    exact t55
  have t53 : lfsrStep^[103935] 26864 = 1 := by
    rw [show (103935 : Nat) = 103423 + 512 from rfl, Function.iterate_add_apply, h53]
    exact t54
  have t52 : lfsrStep^[104447] 108906 = 1 := by
    rw [show (104447 : Nat) = 103935 + 512 from rfl, Function.iterate_add_apply, h52]
    exact t53
  have t51 : lfsrStep^[104959] 43806 = 1 := by
    rw [show (104959 : Nat) = 104447 + 512 from rfl, Function.iterate_add_apply, h51]
    exact t52
  have t50 : lfsrStep^[105471] 65365 = 1 := by
    rw [show (105471 : Nat) = 104959 + 512 from rfl, Function.iterate_add_apply, h50]
    exact t51
  have t49 : lfsrStep^[105983] 45359 = 1 := by
    rw [show (105983 : Nat) = 105471 + 512 from rfl, Function.iterate_add_apply, h49]
    exact t50
  have t48 : lfsrStep^[106495] 16524 = 1 := by
    rw [show (106495 : Nat) = 105983 + 512 from rfl, Function.iterate_add_apply, h48]
    exact t49
  have t47 : lfsrStep^[107007] 115596 = 1 := by
    rw [show (107007 : Nat) = 106495 + 512 from rfl, Function.iterate_add_apply, h47]
    exact t48
  have t46 : lfsrStep^[107519] 37225 = 1 := by
    rw [show (107519 : Nat) = 107007 + 512 from rfl, Function.iterate_add_apply, h46]
    exact t47
  have t45 : lfsrStep^[108031] 88172 = 1 := by
    rw [show (108031 : Nat) = 107519 + 512 from rfl, Function.iterate_add_apply, h45]
    exact t46
  have t44 : lfsrStep^[108543] 31833 = 1 := by
    rw [show (108543 : Nat) = 108031 + 512 from rfl, Function.iterate_add_apply, h44]
    exact t45
  have t43 : lfsrStep^[109055] 82353 = 1 := by
    rw [show (109055 : Nat) = 108543 + 512 from rfl, Function.iterate_add_apply, h43]
    exact t44
  have t42 : lfsrStep^[109567] 111615 = 1 := by
    rw [show (109567 : Nat) = 109055 + 512 from rfl, Function.iterate_add_apply, h42]
    exact t43
  have t41 : lfsrStep^[110079] 45773 = 1 := by
    rw [show (110079 : Nat) = 109567 + 512 from rfl, Function.iterate_add_apply, h41]
    exact t42
  have t40 : lfsrStep^[110591] 36660 = 1 := by
    rw [show (110591 : Nat) = 110079 + 512 from rfl, Function.iterate_add_apply, h40]
    exact t41
  have t39 : lfsrStep^[111103] 21186 = 1 := by
    rw [show (111103 : Nat) = 110591 + 512 from rfl, Function.iterate_add_apply, h39]
    exact t40
  have t38 : lfsrStep^[111615] 42598 = 1 := by
    rw [show (111615 : Nat) = 111103 + 512 from rfl, Function.iterate_add_apply, h38]
    exact t39
  have t37 : lfsrStep^[112127] 99189 = 1 := by
    rw [show (112127 : Nat) = 111615 + 512 from rfl, Function.iterate_add_apply, h37]
    exact t38
  have t36 : lfsrStep^[112639] 38821 = 1 := by
    rw [show (112639 : Nat) = 112127 + 512 from rfl, Function.iterate_add_apply, h36]
    exact t37
  have t35 : lfsrStep^[113151] 71749 = 1 := by
    rw [show (113151 : Nat) = 112639 + 512 from rfl, Function.iterate_add_apply, h35]
    exact t36
  have t34 : lfsrStep^[113663] 60306 = 1 := by
    rw [show (113663 : Nat) = 113151 + 512 from rfl, Function.iterate_add_apply, h34]
    exact t35
  have t33 : lfsrStep^[114175] 81113 = 1 := by
    rw [show (114175 : Nat) = 113663 + 512 from rfl, Function.iterate_add_apply, h33]
    exact t34
  have t32 : lfsrStep^[114687] 8262 = 1 := by
    rw [show (114687 : Nat) = 114175 + 512 from rfl, Function.iterate_add_apply, h32]
    exact t33
  have t31 : lfsrStep^[115199] 71904 = 1 := by
    rw [show (115199 : Nat) = 114687 + 512 from rfl, Function.iterate_add_apply, h31]
    exact t32
  have t30 : lfsrStep^[115711] 114645 = 1 := by
    rw [show (115711 : Nat) = 115199 + 512 from rfl, Function.iterate_add_apply, h30]
    exact t31
  have t29 : lfsrStep^[116223] 119000 = 1 := by
    rw [show (116223 : Nat) = 115711 + 512 from rfl, Function.iterate_add_apply, h29]
    exact t30
  have t28 : lfsrStep^[116735] 60307 = 1 := by
    rw [show (116735 : Nat) = 116223 + 512 from rfl, Function.iterate_add_apply, h28]
    exact t29
  have t27 : lfsrStep^[117247] 52884 = 1 := by
    rw [show (117247 : Nat) = 116735 + 512 from rfl, Function.iterate_add_apply, h27]
    exact t28
  have t26 : lfsrStep^[117759] 118405 = 1 := by
    rw [show (117759 : Nat) = 117247 + 512 from rfl, Function.iterate_add_apply, h26]
    exact t27
  have t25 : lfsrStep^[118271] 123197 = 1 := by
    rw [show (118271 : Nat) = 117759 + 512 from rfl, Function.iterate_add_apply, h25]
    exact t26
  have t24 : lfsrStep^[118783] 5291 = 1 := by
    rw [show (118783 : Nat) = 118271 + 512 from rfl, Function.iterate_add_apply, h24]
    exact t25
  have t23 : lfsrStep^[119295] 68673 = 1 := by
    rw [show (119295 : Nat) = 118783 + 512 from rfl, Function.iterate_add_apply, h23]
    exact t24
  have t22 : lfsrStep^[119807] 50535 = 1 := by
    rw [show (119807 : Nat) = 119295 + 512 from rfl, Function.iterate_add_apply, h22]
    exact t23
  have t21 : lfsrStep^[120319] 114211 = 1 := by
    rw [show (120319 : Nat) = 119807 + 512 from rfl, Function.iterate_add_apply, h21]
    exact t22
  have t20 : lfsrStep^[120831] 92391 = 1 := by
    rw [show (120831 : Nat) = 120319 + 512 from rfl, Function.iterate_add_apply, h20]
    exact t21
  have t19 : lfsrStep^[121343] 109436 = 1 := by
    rw [show (121343 : Nat) = 120831 + 512 from rfl, Function.iterate_add_apply, h19]
    exact t20
  have t18 : lfsrStep^[121855] 79875 = 1 := by
    rw [show (121855 : Nat) = 121343 + 512 from rfl, Function.iterate_add_apply, h18]
    exact t19
  have t17 : lfsrStep^[122367] 127858 = 1 := by
    rw [show (122367 : Nat) = 121855 + 512 from rfl, Function.iterate_add_apply, h17]
    exact t18
  have t16 : lfsrStep^[122879] 33548 = 1 := by
    rw [show (122879 : Nat) = 122367 + 512 from rfl, Function.iterate_add_apply, h16]
    exact t17
  have t15 : lfsrStep^[123391] 127134 = 1 := by
    rw [show (123391 : Nat) = 122879 + 512 from rfl, Function.iterate_add_apply, h15]
    exact t16
  have t14 : lfsrStep^[123903] 127859 = 1 := by
    rw [show (123903 : Nat) = 123391 + 512 from rfl, Function.iterate_add_apply, h14]
    exact t15
  have t13 : lfsrStep^[124415] 94529 = 1 := by
    rw [show (124415 : Nat) = 123903 + 512 from rfl, Function.iterate_add_apply, h13]
    exact t14
  have t12 : lfsrStep^[124927] 7773 = 1 := by
    rw [show (124927 : Nat) = 124415 + 512 from rfl, Function.iterate_add_apply, h12]
    exact t13
  have t11 : lfsrStep^[125439] 68270 = 1 := by
    rw [show (125439 : Nat) = 124927 + 512 from rfl, Function.iterate_add_apply, h11]
    exact t12
  have t10 : lfsrStep^[125951] 55871 = 1 := by
    rw [show (125951 : Nat) = 125439 + 512 from rfl, Function.iterate_add_apply, h10]
    exact t11
  have t9 : lfsrStep^[126463] 49860 = 1 := by
    rw [show (126463 : Nat) = 125951 + 512 from rfl, Function.iterate_add_apply, h9]
    exact t10
  have t8 : lfsrStep^[126975] 74842 = 1 := by
    rw [show (126975 : Nat) = 126463 + 512 from rfl, Function.iterate_add_apply, h8]
    exact t9
  have t7 : lfsrStep^[127487] 109192 = 1 := by
    rw [show (127487 : Nat) = 126975 + 512 from rfl, Function.iterate_add_apply, h7]
    exact t8
  have t6 : lfsrStep^[127999] 25766 = 1 := by
    rw [show (127999 : Nat) = 127487 + 512 from rfl, Function.iterate_add_apply, h6]
    exact t7
  have t5 : lfsrStep^[128511] 93723 = 1 := by
    rw [show (128511 : Nat) = 127999 + 512 from rfl, Function.iterate_add_apply, h5]
    exact t6
  have t4 : lfsrStep^[129023] 34336 = 1 := by
    rw [show (129023 : Nat) = 128511 + 512 from rfl, Function.iterate_add_apply, h4]
    exact t5
  have t3 : lfsrStep^[129535] 39829 = 1 := by
    rw [show (129535 : Nat) = 129023 + 512 from rfl, Function.iterate_add_apply, h3]
    exact t4
  have t2 : lfsrStep^[130047] 75888 = 1 := by
    rw [show (130047 : Nat) = 129535 + 512 from rfl, Function.iterate_add_apply, h2]
    exact t3
  have t1 : lfsrStep^[130559] 51357 = 1 := by
    rw [show (130559 : Nat) = 130047 + 512 from rfl, Function.iterate_add_apply, h1]
    exact t2
  have t0 : lfsrStep^[131071] 1 = 1 := by
    rw [show (131071 : Nat) = 130559 + 512 from rfl, Function.iterate_add_apply, h0]
    exact t1
  exact t0

/-- Helper: the masked LFSR update always stays below 2^17. -/
theorem lfsrStep_lt (v : Nat) : lfsrStep v < 131072 := by
  unfold lfsrStep
  have h : ((v >>> 1) ||| (((v &&& 1) ^^^ ((v >>> 14) &&& 1)) <<< 16)) &&& 131071
      ≤ 131071 := Nat.and_le_right
  omega

/-- Helper: the LFSR update of a non-zero 17-bit value is non-zero. -/
theorem lfsrStep_ne_zero (v : Nat) (h0 : v ≠ 0) (hlt : v < 131072) :
    lfsrStep v ≠ 0 := by
  by_cases hv1 : v = 1
  · subst hv1
    decide
  · have h2 : 2 ≤ v := by omega
    have hvs : v >>> 1 ≠ 0 := by
      rw [Nat.shiftRight_eq_div_pow]
      omega
    obtain ⟨j, hj⟩ := Nat.ne_zero_implies_bit_true hvs
    have hvj : v.testBit (1 + j) = true := by
      rw [← Nat.testBit_shiftRight]
      exact hj
    have hj17 : 1 + j < 17 := by
      by_contra hcon
      have hpow : v < 2 ^ (1 + j) := by
        calc v < 131072 := hlt
        _ = 2 ^ 17 := by norm_num
        _ ≤ 2 ^ (1 + j) := Nat.pow_le_pow_right (by norm_num) (by omega)
      rw [Nat.testBit_lt_two_pow hpow] at hvj
      exact Bool.false_ne_true hvj
    intro hz
    have hbit : (lfsrStep v).testBit j = true := by
      unfold lfsrStep
      rw [Nat.testBit_and, Nat.testBit_or]
      have hm : Nat.testBit 131071 j = true := by
        rw [show (131071 : Nat) = 2 ^ 17 - 1 from rfl,
          Nat.testBit_two_pow_sub_one]
        simp only [decide_eq_true_eq]
        omega
      rw [hm, hj]
      rfl
    rw [hz] at hbit
    simp at hbit

/-- Helper: iterating the LFSR update preserves the non-zero 17-bit
range. -/
theorem lfsr_iter_mem (s : Nat) (h0 : s ≠ 0) (hlt : s < 131072) (k : Nat) :
    lfsrStep^[k] s ≠ 0 ∧ lfsrStep^[k] s < 131072 := by
  induction k with
  | zero => exact ⟨h0, hlt⟩
  | succ k ih =>
    rw [Function.iterate_succ_apply']
    exact ⟨lfsrStep_ne_zero _ ih.1 ih.2, lfsrStep_lt _⟩

/-- Helper: 1 has minimal period exactly 2^17 - 1 under the LFSR
update (2^17 - 1 is a Mersenne prime and 1 is not a fixed point). -/
theorem lfsr_minPeriod_one : Function.minimalPeriod lfsrStep 1 = 131071 := by
  haveI : Fact (Nat.Prime 131071) := ⟨by norm_num⟩
  apply Function.minimalPeriod_eq_prime
  · exact lfsr_cycle_seed_one
  · intro hfix
    exact absurd (hfix : lfsrStep 1 = 1) (by decide)

/-- Helper: the orbit of the seed 1 visits every non-zero 17-bit
value. -/
theorem lfsr_orbit_covers (s : Nat) (h0 : s ≠ 0) (hlt : s < 131072) :
    ∃ k, k < 131071 ∧ lfsrStep^[k] 1 = s := by
  classical
  have hinj : Set.InjOn (fun k => lfsrStep^[k] 1) ↑(Finset.range 131071) := by
    rw [Finset.coe_range, ← lfsr_minPeriod_one]
    exact Function.iterate_injOn_Iio_minimalPeriod
  have hcardOrb : ((Finset.range 131071).image (fun k => lfsrStep^[k] 1)).card
      = 131071 := by
    rw [Finset.card_image_of_injOn hinj, Finset.card_range]
  have hsub : (Finset.range 131071).image (fun k => lfsrStep^[k] 1)
      ⊆ Finset.Ioo 0 131072 := by
    intro x hx
    simp only [Finset.mem_image, Finset.mem_range] at hx
    obtain ⟨k, hk, rfl⟩ := hx
    have hmem := lfsr_iter_mem 1 (by decide) (by decide) k
    simp only [Finset.mem_Ioo]
    omega
  have hcardS : (Finset.Ioo 0 131072).card = 131071 := by
    rw [Nat.card_Ioo]
  have heq : (Finset.range 131071).image (fun k => lfsrStep^[k] 1)
      = Finset.Ioo 0 131072 :=
    Finset.eq_of_subset_of_card_le hsub (by rw [hcardS, hcardOrb])
  have hs : s ∈ (Finset.range 131071).image (fun k => lfsrStep^[k] 1) := by
    rw [heq]
    simp only [Finset.mem_Ioo]
    omega
  simp only [Finset.mem_image, Finset.mem_range] at hs
  exact hs

/-- C7: every non-zero 17-bit seed returns to itself after exactly
131071 = 2^17 - 1 LFSR steps, the 131071 iterates before that are
pairwise distinct (so the cycle visits 131071 distinct values), and
every iterate stays a non-zero 17-bit value. -/
theorem c7_lfsr_maximal_cycle (s : Nat) (h0 : s ≠ 0) (hlt : s < 131072) :
    lfsrStep^[131071] s = s ∧
    (∀ i j, i < j → j < 131071 → lfsrStep^[i] s ≠ lfsrStep^[j] s) ∧
    (∀ k, lfsrStep^[k] s ≠ 0 ∧ lfsrStep^[k] s < 131072) := by
  obtain ⟨k, hk, hks⟩ := lfsr_orbit_covers s h0 hlt
  have hper : lfsrStep^[131071] s = s := by
    rw [← hks, ← Function.iterate_add_apply, add_comm,
      Function.iterate_add_apply, lfsr_cycle_seed_one]
  haveI : Fact (Nat.Prime 131071) := ⟨by norm_num⟩
  have hmin : Function.minimalPeriod lfsrStep s = 131071 := by
    apply Function.minimalPeriod_eq_prime
    · exact hper
    · intro hfix
      have hall : ∀ m : Nat, lfsrStep^[m] s = s := by
        intro m
        induction m with
        | zero => rfl
        | succ m ih =>
          rw [Function.iterate_succ_apply', ih]
          exact hfix
      have h1s : s = 1 := by
        calc s = lfsrStep^[131071 - k] s := (hall _).symm
        _ = lfsrStep^[131071 - k] (lfsrStep^[k] 1) := by rw [hks]
        _ = lfsrStep^[131071] 1 := by
              rw [← Function.iterate_add_apply,
                show 131071 - k + k = 131071 from by omega]
        _ = 1 := lfsr_cycle_seed_one
      rw [h1s] at hfix
      exact absurd (hfix : lfsrStep 1 = 1) (by decide)
  refine ⟨hper, ?_, fun m => lfsr_iter_mem s h0 hlt m⟩
  intro i j hij hj hne
  have hi : i < 131071 := lt_trans hij hj
  have hiff := Function.iterate_eq_iterate_iff_of_lt_minimalPeriod
    (f := lfsrStep) (x := s) (hmin ▸ hi) (hmin ▸ hj)
  exact absurd (hiff.mp hne) (by omega)

/-- C7 witness: the full-cycle property applied at the concrete seed 1. -/
theorem c7_witness :
    ((1 : Nat) ≠ 0 ∧ (1 : Nat) < 131072) ∧
    (lfsrStep^[131071] 1 = 1 ∧
     (∀ i j, i < j → j < 131071 → lfsrStep^[i] 1 ≠ lfsrStep^[j] 1) ∧
     (∀ k, lfsrStep^[k] 1 ≠ 0 ∧ lfsrStep^[k] 1 < 131072)) :=
  ⟨⟨by decide, by decide⟩, c7_lfsr_maximal_cycle 1 (by decide) (by decide)⟩

/-- C10 witness: the invariant established at period 5, preserved by a
register write of period 3, and the flip-at-counter property, all at
concrete inputs. -/
theorem c10_witness :
    toneInv (ToneGen.init 5) ∧
    toneInv ((ToneGen.init 5).setPeriod 3 0) ∧
    (ToneGen.update1^[(ToneGen.init 5).counter.toNat] (ToneGen.init 5)).output
      = !(ToneGen.init 5).output :=
  have h5 : toneInv (ToneGen.init 5) :=
    c10_tone_invariant.1 5 (by decide) (by decide)
  ⟨h5,
   c10_tone_invariant.2.2.1 (ToneGen.init 5) 3 0 (by decide) (by decide) h5,
   (c10_tone_invariant.2.2.2 (ToneGen.init 5) h5).1⟩
